import Mathlib

/-!
Verification of the cart/checkout orchestration core (telecom cart service).

This file gives a shallow embedding of the TypeScript sources:
  src/models/cart.ts, src/models/tax.ts (data model),
  src/utils/validators.ts (validation and the per-user operation queue),
  src/stores/tax-rate-store.ts, src/stores (cart and context stores),
  src/services/cart.service.ts (CartService: mutations, sync, checkout),
  src/services/tax-calculators (CanadianTaxCalculator),
  the cleanup service (CartCleanupService.cleanupExpiredCarts).

Modelling conventions:
* JavaScript `Date` values and `Date.now()` are embedded as integer
  millisecond timestamps (`Int`).
* JavaScript numbers (prices, rates, money amounts) are embedded as exact
  rationals (`ℚ`); the claims about money are stated up to rounding to
  cents, where IEEE-double error of the source is far below a cent.
* Asynchronous methods are embedded as pure functions; each call to an
  external collaborator (commerce provider, tax service) is resolved by an
  explicit environment record that fixes the outcome of that call, since
  the service treats these as black boxes behind interfaces.  A thrown
  exception is an `Except.error` carrying the message string
  (`error instanceof Error ? error.message : 'Unknown error'` in the
  source; non-`Error` throws are represented by their fallback message).
* The two in-memory stores are keyed by user id and each operation touches
  only one user's entries, so state is the pair of entries for the user at
  hand (`UserState`).  JS object aliasing (the cart object held by the
  store is the same object the service mutates) is reflected by threading
  one cart value and writing it back to the store wherever the source
  either mutates the shared object or calls `update`.
-/

/-- Product types from src/models/cart.ts (`ProductType`). -/
inductive ProductType
  | device
  | accessory
  | plan
  | service
deriving DecidableEq, Repr

/-- Sync status from src/models/cart.ts (`SyncStatus`). -/
inductive SyncStatus
  | synced
  | pending
  | failed
deriving DecidableEq, Repr

/-- Checkout status from src/models/cart.ts (`CheckoutStatus`). -/
inductive CheckoutStatus
  | pending
  | in_progress
  | completed
  | failed
deriving DecidableEq, Repr

/-- Line item from src/models/cart.ts (`CartItem`). -/
structure CartItem where
  productId : String
  name : String
  type : ProductType
  quantity : Int
  price : ℚ
deriving DecidableEq, Repr

/-- Tax breakdown line from src/models/tax.ts (`TaxBreakdown`). -/
structure TaxBreakdown where
  jurisdiction : String
  taxName : String
  rate : ℚ
  taxableAmount : ℚ
  taxAmount : ℚ
deriving DecidableEq, Repr

/-- Tax calculation result from src/models/tax.ts (`TaxCalculationResult`). -/
structure TaxCalculationResult where
  subtotal : ℚ
  taxes : List TaxBreakdown
  totalTax : ℚ
  total : ℚ
deriving DecidableEq, Repr

/-- Tax context from src/models/tax.ts (`TaxContext`). -/
structure TaxContext where
  jurisdiction : String
  customerId : Option String
  calculationDate : Int
deriving DecidableEq, Repr

/-- Tax rate from src/models/tax.ts (`TaxRate`). -/
structure TaxRate where
  id : String
  jurisdiction : String
  name : String
  rate : ℚ
  applicableProductTypes : List ProductType
  effectiveFrom : Int
  effectiveTo : Option Int
deriving DecidableEq, Repr

/-- Checkout result from src/models/cart.ts (`CheckoutResult`). -/
structure CheckoutResult where
  orderId : Option String
  userId : String
  subtotal : ℚ
  taxes : List TaxBreakdown
  totalTax : ℚ
  total : ℚ
  status : CheckoutStatus
  items : List CartItem
  completedAt : Option Int
  error : Option String
deriving DecidableEq, Repr

/-- Cart entity from src/models/cart.ts (`Cart`). -/
structure Cart where
  id : String
  userId : String
  items : List CartItem
  createdAt : Int
  updatedAt : Int
  lastAccessedAt : Int
  externalCartId : Option String
  taxContext : Option TaxContext
  syncStatus : SyncStatus
  lastSyncedAt : Option Int
  lastSyncError : Option String
  checkoutStatus : CheckoutStatus
  checkoutStartedAt : Option Int
  checkoutCompletedAt : Option Int
  checkoutResult : Option CheckoutResult
  checkoutError : Option String
deriving DecidableEq, Repr

/-- External provider context from the context model (`ExternalCartContext`). -/
structure ExternalCartContext where
  contextId : String
  cartId : String
  provider : String
  createdAt : Int
  expiresAt : Int
  isExpired : Bool
deriving DecidableEq, Repr

/-- External cart view from the context model (`ExternalCart`). -/
structure ExternalCart where
  cartId : String
  items : List CartItem
deriving DecidableEq, Repr

/-- The store entries for one user: the `CartStore` entry and the
`ProviderContextStore` entry for that user id.  All CartService operations
touch only the entries of the user they are invoked for. -/
structure UserState where
  cart : Option Cart
  context : Option ExternalCartContext
deriving DecidableEq, Repr

/- Error message constants from src/models/error-constants.ts
(ErrorMessages and the cleanup service's timeout message). -/
namespace ErrorMessages

def cartNotFound : String := "Cart not found or already checked out"

def itemNotFound : String := "Item not found in cart"

def emptyCart : String := "Cannot checkout an empty cart"

def cartAlreadyCheckedOut : String := "Cart already checked out"

def checkoutInProgress : String := "Checkout already in progress"

def providerCheckoutFailed : String := "Provider checkout failed"

def unknownError : String := "Unknown error"

def syncValidationItemCount : String := "Cart sync validation failed: item count mismatch"

def syncValidationItemMismatch : String := "Cart sync validation failed: item mismatch"

def invalidItemData : String := "Invalid item data"

def quantityMustBeInteger : String := "Quantity must be an integer >= 1"

def checkoutTimeout : String := "Checkout timeout - please retry"

end ErrorMessages

/-- JavaScript `a || b` on an optional string: `undefined` and the empty
string are falsy, so both fall back to `b`. -/
def jsOrString (a : Option String) (b : String) : String :=
  match a with
  | none => b
  | some s => if s = "" then b else s

/-- The source's `!s || s.trim() === ''` check: an absent/empty string or
one whose trimmed form is empty — exactly the strings all of whose
characters are whitespace (the empty string included). -/
def isBlank (s : String) : Bool :=
  s.data.all (fun c => c.isWhitespace)

/-- `validateCartItem` from src/utils/validators.ts.  The typed embedding
makes the `type` field always one of the valid product types, so that check
cannot fail here; the remaining checks are as in the source.  Returns the
thrown `ValidationError` message, or `none` when the item is valid. -/
def validateCartItem (item : CartItem) : Option String :=
  if isBlank item.productId ∨ isBlank item.name ∨
      item.quantity < 1 ∨ item.price < 0 then
    some ErrorMessages.invalidItemData
  else
    none

/-- `validateQuantityUpdate` from src/utils/validators.ts; the quantity is
already an integer in the embedding, so only the `< 1` check remains. -/
def validateQuantityUpdate (quantity : Int) : Option String :=
  if quantity < 1 then some ErrorMessages.quantityMustBeInteger else none

/-- `CartStore.update` from the cart store: refreshes `updatedAt` and
`lastAccessedAt` and writes the cart back. -/
def storeUpdate (cart : Cart) (now : Int) : Cart :=
  { cart with updatedAt := now, lastAccessedAt := now }

/-- Seeded tax rates from `TaxRateStore.seedInitialRates`
(src/stores/tax-rate-store.ts).  Date literals are the epoch-millisecond
values of the source's `new Date(...)` constants. -/
def seedInitialRates : List TaxRate :=
  [ { id := "ca-on-hst", jurisdiction := "CA-ON", name := "HST", rate := 13/100,
      applicableProductTypes := [.device, .accessory, .plan, .service],
      effectiveFrom := 1277942400000, effectiveTo := none },
    { id := "ca-bc-gst", jurisdiction := "CA-BC", name := "GST", rate := 5/100,
      applicableProductTypes := [.device, .accessory, .plan, .service],
      effectiveFrom := 1364774400000, effectiveTo := none },
    { id := "ca-bc-pst", jurisdiction := "CA-BC", name := "PST", rate := 7/100,
      applicableProductTypes := [.device, .accessory],
      effectiveFrom := 1364774400000, effectiveTo := none },
    { id := "ca-ab-gst", jurisdiction := "CA-AB", name := "GST", rate := 5/100,
      applicableProductTypes := [.device, .accessory, .plan, .service],
      effectiveFrom := 662688000000, effectiveTo := none },
    { id := "ca-qc-gst", jurisdiction := "CA-QC", name := "GST", rate := 5/100,
      applicableProductTypes := [.device, .accessory, .plan, .service],
      effectiveFrom := 662688000000, effectiveTo := none },
    { id := "ca-qc-qst", jurisdiction := "CA-QC", name := "QST", rate := 9975/100000,
      applicableProductTypes := [.device, .accessory, .plan, .service],
      effectiveFrom := 1356998400000, effectiveTo := none },
    { id := "us-ca-sales", jurisdiction := "US-CA", name := "Sales Tax", rate := 725/10000,
      applicableProductTypes := [.device, .accessory],
      effectiveFrom := 1309478400000, effectiveTo := none },
    { id := "us-ny-sales", jurisdiction := "US-NY", name := "Sales Tax", rate := 4/100,
      applicableProductTypes := [.device, .accessory],
      effectiveFrom := 1117584000000, effectiveTo := none },
    { id := "us-tx-sales", jurisdiction := "US-TX", name := "Sales Tax", rate := 625/10000,
      applicableProductTypes := [.device, .accessory, .service],
      effectiveFrom := 631152000000, effectiveTo := none },
    { id := "us-or-none", jurisdiction := "US-OR", name := "No Tax", rate := 0,
      applicableProductTypes := [.device, .accessory, .plan, .service],
      effectiveFrom := -2208988800000, effectiveTo := none } ]

/-- `TaxRateStore.getRatesByJurisdiction`: the store's map keyed by
jurisdiction, seeded in list order, is embedded as the seed list filtered
by jurisdiction (per-jurisdiction insertion order is preserved). -/
def getRatesByJurisdiction (rates : List TaxRate) (jurisdiction : String) : List TaxRate :=
  rates.filter (fun r => r.jurisdiction == jurisdiction)

/-- `TaxRateStore.getRatesAtDate`: keeps rates with
`effectiveFrom <= date` and `!effectiveTo || effectiveTo >= date`. -/
def getRatesAtDate (rates : List TaxRate) (jurisdiction : String) (date : Int) : List TaxRate :=
  (getRatesByJurisdiction rates jurisdiction).filter
    (fun r =>
      decide (r.effectiveFrom ≤ date) &&
        (match r.effectiveTo with
        | none => true
        | some t => decide (date ≤ t)))

/-- `calculateSubtotal` as in `CanadianTaxCalculator` and `TaxService`:
`items.reduce((sum, item) => sum + item.price * item.quantity, 0)`. -/
def calculateSubtotal (items : List CartItem) : ℚ :=
  items.foldl (fun sum item => sum + item.price * (item.quantity : ℚ)) 0

/-- `CanadianTaxCalculator.calculateTaxableAmount`: subtotal restricted to
the items whose type the rate applies to. -/
def calculateTaxableAmount (items : List CartItem) (rate : TaxRate) : ℚ :=
  (items.filter (fun item => rate.applicableProductTypes.contains item.type)).foldl
    (fun sum item => sum + item.price * (item.quantity : ℚ)) 0

/-- `CanadianTaxCalculator.calculate` (src/services/tax-calculators).
The source looks rates up by `context.jurisdiction` (the calculator's own
jurisdiction field is not consulted in `calculate`), takes the HST branch
when an HST rate exists, and otherwise accumulates GST, PST and QST in
order, QST being computed on its taxable amount plus the GST tax amount. -/
def CanadianTaxCalculator.calculate (store : List TaxRate) (items : List CartItem)
    (context : TaxContext) : TaxCalculationResult :=
  let rates := getRatesAtDate store context.jurisdiction context.calculationDate
  if rates.length = 0 then
    let subtotal := calculateSubtotal items
    { subtotal := subtotal, taxes := [], totalTax := 0, total := subtotal }
  else
    let subtotal := calculateSubtotal items
    let taxes :=
      match rates.find? (fun r => r.name == "HST") with
      | some hstRate =>
        let taxableAmount := calculateTaxableAmount items hstRate
        [{ jurisdiction := context.jurisdiction, taxName := hstRate.name,
           rate := hstRate.rate, taxableAmount := taxableAmount,
           taxAmount := taxableAmount * hstRate.rate }]
      | none =>
        let gstTaxes :=
          match rates.find? (fun r => r.name == "GST") with
          | some gstRate =>
            let gstTaxableAmount := calculateTaxableAmount items gstRate
            [{ jurisdiction := context.jurisdiction, taxName := gstRate.name,
               rate := gstRate.rate, taxableAmount := gstTaxableAmount,
               taxAmount := gstTaxableAmount * gstRate.rate }]
          | none => []
        let pstTaxes :=
          match rates.find? (fun r => r.name == "PST") with
          | some pstRate =>
            let pstTaxableAmount := calculateTaxableAmount items pstRate
            [{ jurisdiction := context.jurisdiction, taxName := pstRate.name,
               rate := pstRate.rate, taxableAmount := pstTaxableAmount,
               taxAmount := pstTaxableAmount * pstRate.rate }]
          | none => []
        let taxesSoFar := gstTaxes ++ pstTaxes
        let qstTaxes :=
          match rates.find? (fun r => r.name == "QST") with
          | some qstRate =>
            let qstTaxableAmount := calculateTaxableAmount items qstRate
            let gstTax := taxesSoFar.find? (fun t => t.taxName == "GST")
            let qstBase := qstTaxableAmount +
              (match gstTax with | some t => t.taxAmount | none => 0)
            [{ jurisdiction := context.jurisdiction, taxName := qstRate.name,
               rate := qstRate.rate, taxableAmount := qstBase,
               taxAmount := qstBase * qstRate.rate }]
          | none => []
        taxesSoFar ++ qstTaxes
    let totalTax := taxes.foldl (fun sum t => sum + t.taxAmount) 0
    { subtotal := subtotal, taxes := taxes, totalTax := totalTax,
      total := subtotal + totalTax }

/-- `Math.round` on rationals: JavaScript rounds half toward positive
infinity, `Math.round x = ⌊x + 1/2⌋`. -/
def mathRound (x : ℚ) : ℤ := ⌊x + 1/2⌋

/-- `roundToTwoDecimals` from src/utils/cart-calculations.ts:
`Math.round(value * 100) / 100`. -/
def roundToTwoDecimals (value : ℚ) : ℚ := (mathRound (value * 100) : ℚ) / 100

/-!
### Operation Sequencer (CartOperationQueue, src/utils)

`enqueue` keeps a tail promise per key and chains
`previousOp.then(() => operation()).catch(err => { log; throw err })`.
A task's behaviour, were it executed, is an `Except String α` (resolve
with a value or reject with an error message).  `promiseThen` is the
semantics of one chain link: when the predecessor promise is rejected the
`.then` fulfillment handler is skipped — the operation does not run — and
the rejection propagates through the `.catch` (which rethrows) to this
link's caller.  `enqueueChain` delivers, for a batch of tasks all enqueued
in immediate succession on one key (each chained onto the previous link
before it settles), the pair (did the operation run, outcome delivered to
its caller).
-/

/-- One promise-chain link of `CartOperationQueue.enqueue`:
`previousOp.then(() => operation())` runs the operation only if the
predecessor fulfilled; a predecessor rejection is passed through (the
`.catch` handler rethrows, the `.finally` is transparent). -/
def promiseThen {α : Type} (prev : Except String Unit) (task : Except String α) :
    Bool × Except String α :=
  match prev with
  | .error e => (false, .error e)
  | .ok _ => (true, task)

/-- Outcomes delivered by `enqueue` for tasks chained in sequence starting
from the predecessor outcome `prev`. -/
def enqueueChainFrom {α : Type} (prev : Except String Unit) :
    List (Except String α) → List (Bool × Except String α)
  | [] => []
  | task :: rest =>
    let step := promiseThen prev task
    step ::
      enqueueChainFrom
        (match step.2 with
        | .ok _ => .ok ()
        | .error e => .error e)
        rest

/-- Outcomes delivered by `CartOperationQueue.enqueue` for a batch of
tasks enqueued in immediate succession on one key; the first chains onto
`Promise.resolve()`. -/
def enqueueChain {α : Type} (tasks : List (Except String α)) :
    List (Bool × Except String α) :=
  enqueueChainFrom (.ok ()) tasks

/-!
### Reconciler (CartService.syncToExternalProvider and helpers)
-/

/-- `CartService.findItemsToAdd`: local items missing externally or
present with a different quantity. -/
def findItemsToAdd (localItems externalItems : List CartItem) : List CartItem :=
  localItems.filter
    (fun localItem =>
      (externalItems.find? (fun extItem => extItem.productId == localItem.productId)).isNone ||
        (externalItems.find?
          (fun extItem =>
            extItem.productId == localItem.productId &&
              extItem.quantity != localItem.quantity)).isSome)

/-- `CartService.findItemsToRemove`: external items absent locally. -/
def findItemsToRemove (localItems externalItems : List CartItem) : List CartItem :=
  externalItems.filter
    (fun extItem =>
      (localItems.find? (fun localItem => localItem.productId == extItem.productId)).isNone)

/-- `ProviderContextStore.get`: returns the stored context unless it is
flagged expired or past its expiry, in which case the entry is deleted and
`null` returned.  Result: (value returned to the caller, entry remaining
in the store). -/
def contextStoreGet (ctx : Option ExternalCartContext) (now : Int) :
    Option ExternalCartContext × Option ExternalCartContext :=
  match ctx with
  | none => (none, none)
  | some c =>
    if c.isExpired || decide (c.expiresAt < now) then (none, none) else (some c, some c)

/-- Environment resolving the external calls made during one
`syncToExternalProvider` pass (and the cart-mutation operation wrapping
it).  `validateContext`, `createCart` and `getCart` give the outcome of
the corresponding provider call; `removeFail`/`addFail` give, per product
id, the error a `provider.removeItem`/`provider.addItem` call throws
(`none` = the call succeeds). -/
structure SyncEnv where
  now : Int
  validateContext : Except String Bool
  createCart : Except String ExternalCartContext
  getCart : Except String ExternalCart
  removeFail : String → Option String
  addFail : String → Option String

/-- `CartService.getOrCreateContext` / `createAndSyncContext`: read the
stored context (subject to the store's expiry check); when absent,
`createAndSyncContext` calls `provider.createCart`, stores the fresh
context and sets the cart's `externalCartId`; when present, validate it
with the provider and recreate on a negative answer.  An error result
carries the exception message with the cart and context-store entry as
mutated at the throw point. -/
def syncObtainContext (env : SyncEnv) (cart : Cart) (ctx : Option ExternalCartContext) :
    Except (String × Cart × Option ExternalCartContext)
      (Cart × Option ExternalCartContext) :=
  match (contextStoreGet ctx env.now).1 with
  | none =>
    match env.createCart with
    | .error e => .error (e, cart, (contextStoreGet ctx env.now).2)
    | .ok c => .ok ({ cart with externalCartId := some c.contextId }, some c)
  | some c0 =>
    match env.validateContext with
    | .error e => .error (e, cart, (contextStoreGet ctx env.now).2)
    | .ok true => .ok (cart, some c0)
    | .ok false =>
      match env.createCart with
      | .error e => .error (e, cart, (contextStoreGet ctx env.now).2)
      | .ok c => .ok ({ cart with externalCartId := some c.contextId }, some c)

/-- The diff-and-replay phase of `syncToExternalProvider`: fetch the
external cart, compute the two diff sets, apply removals then additions;
the first provider call that throws aborts the phase. -/
def syncApplyDiff (env : SyncEnv) (cart1 : Cart) (ctx1 : Option ExternalCartContext) :
    Except (String × Cart × Option ExternalCartContext)
      (Cart × Option ExternalCartContext) :=
  match env.getCart with
  | .error e => .error (e, cart1, ctx1)
  | .ok externalCart =>
    match (findItemsToRemove cart1.items externalCart.items).findSome?
        (fun item => env.removeFail item.productId) with
    | some e => .error (e, cart1, ctx1)
    | none =>
      match (findItemsToAdd cart1.items externalCart.items).findSome?
          (fun item => env.addFail item.productId) with
      | some e => .error (e, cart1, ctx1)
      | none => .ok (cart1, ctx1)

/-- The try-block of `CartService.syncToExternalProvider` (lines 372-394):
obtain or create a provider context, then fetch, diff and replay. -/
def syncTryBlock (env : SyncEnv) (cart : Cart) (ctx : Option ExternalCartContext) :
    Except (String × Cart × Option ExternalCartContext)
      (Cart × Option ExternalCartContext) :=
  match syncObtainContext env cart ctx with
  | .error x => .error x
  | .ok (cart1, ctx1) => syncApplyDiff env cart1 ctx1

/-- `CartService.syncToExternalProvider`: on full success mark the cart
`synced` with a fresh timestamp; on any failure catch the exception, mark
`pending` and record the message — never throws to its caller. -/
def syncToExternalProvider (env : SyncEnv) (cart : Cart)
    (ctx : Option ExternalCartContext) : Cart × Option ExternalCartContext :=
  match syncTryBlock env cart ctx with
  | .ok (cart1, ctx1) =>
    ({ cart1 with syncStatus := .synced, lastSyncedAt := some env.now }, ctx1)
  | .error (e, cart1, ctx1) =>
    ({ cart1 with syncStatus := .pending, lastSyncError := some e }, ctx1)

/-!
### Cart mutations (CartService.getCart/addItem/updateItemQuantity/removeItem)
-/

/-- `CartService.createNewCart`. -/
def createNewCart (userId : String) (now : Int) : Cart :=
  { id := "cart_" ++ toString now ++ "_" ++ userId, userId := userId, items := [],
    createdAt := now, updatedAt := now, lastAccessedAt := now,
    externalCartId := none, taxContext := none,
    syncStatus := .synced, lastSyncedAt := none, lastSyncError := none,
    checkoutStatus := .pending, checkoutStartedAt := none,
    checkoutCompletedAt := none, checkoutResult := none, checkoutError := none }

/-- `CartService.getCart`: get-or-create; an existing cart gets its
`lastAccessedAt` refreshed and is written back through `update`. -/
def getCartOp (userId : String) (now : Int) (st : UserState) : Cart × UserState :=
  match st.cart with
  | none =>
    let cart := createNewCart userId now
    (cart, { st with cart := some cart })
  | some cart =>
    let cart1 := storeUpdate { cart with lastAccessedAt := now } now
    (cart1, { st with cart := some cart1 })

/-- The item insertion of `CartService.addItem`: `findIndex` on the
product id, replace the first match wholesale, otherwise push. -/
def upsertItem : List CartItem → CartItem → List CartItem
  | [], item => [item]
  | i :: rest, item =>
    if i.productId == item.productId then item :: rest else i :: upsertItem rest item

/-- The quantity update of `CartService.updateItemQuantity`: `findIndex`
on the product id, set the first match's quantity; `none` when absent
(the source throws `ItemNotFoundError`). -/
def updateFirstQuantity : List CartItem → String → Int → Option (List CartItem)
  | [], _, _ => none
  | i :: rest, productId, quantity =>
    if i.productId == productId then some ({ i with quantity := quantity } :: rest)
    else (updateFirstQuantity rest productId quantity).map (fun rest1 => i :: rest1)

/-- The removal of `CartService.removeItem`: `findIndex` on the product
id, splice out the first match; `none` when absent (the source throws
`ItemNotFoundError`). -/
def removeFirstItem : List CartItem → String → Option (List CartItem)
  | [], _ => none
  | i :: rest, productId =>
    if i.productId == productId then some rest
    else (removeFirstItem rest productId).map (fun rest1 => i :: rest1)

/-- The local (pre-sync) part of `CartService.addItem`: get-or-create the
cart, insert the item, write back through `update`. -/
def addItemLocal (userId : String) (item : CartItem) (now : Int) (st : UserState) :
    Cart × UserState :=
  let cart0 := (getCartOp userId now st).1
  let st0 := (getCartOp userId now st).2
  let cart1 := storeUpdate { cart0 with items := upsertItem cart0.items item } now
  (cart1, { st0 with cart := some cart1 })

/-- `CartService.addItem` (one sequencer task): validate, mutate the local
cart, then best-effort sync; the sync failure is absorbed and the updated
cart is returned.  `Except.error` is a thrown typed error
(`ValidationError`). -/
def CartService.addItem (userId : String) (item : CartItem) (env : SyncEnv)
    (st : UserState) : Except String (Cart × UserState) :=
  match validateCartItem item with
  | some msg => .error msg
  | none =>
    let cart1 := (addItemLocal userId item env.now st).1
    let st1 := (addItemLocal userId item env.now st).2
    let cart2 := (syncToExternalProvider env cart1 st1.context).1
    let ctx2 := (syncToExternalProvider env cart1 st1.context).2
    .ok (cart2, { cart := some cart2, context := ctx2 })

/-- `CartService.updateItemQuantity` (one sequencer task). -/
def CartService.updateItemQuantity (userId productId : String) (quantity : Int)
    (env : SyncEnv) (st : UserState) : Except String (Cart × UserState) :=
  match validateQuantityUpdate quantity with
  | some msg => .error msg
  | none =>
    let cart0 := (getCartOp userId env.now st).1
    match updateFirstQuantity cart0.items productId quantity with
    | none => .error ErrorMessages.itemNotFound
    | some items1 =>
      let cart1 := storeUpdate { cart0 with items := items1 } env.now
      let cart2 := (syncToExternalProvider env cart1 st.context).1
      let ctx2 := (syncToExternalProvider env cart1 st.context).2
      .ok (cart2, { cart := some cart2, context := ctx2 })

/-- `CartService.removeItem` (one sequencer task). -/
def CartService.removeItem (userId productId : String) (env : SyncEnv)
    (st : UserState) : Except String (Cart × UserState) :=
  let cart0 := (getCartOp userId env.now st).1
  match removeFirstItem cart0.items productId with
  | none => .error ErrorMessages.itemNotFound
  | some items1 =>
    let cart1 := storeUpdate { cart0 with items := items1 } env.now
    let cart2 := (syncToExternalProvider env cart1 st.context).1
    let ctx2 := (syncToExternalProvider env cart1 st.context).2
    .ok (cart2, { cart := some cart2, context := ctx2 })

/-- `CartService.clearCart` (one sequencer task): requires an existing
cart, empties its item list and deletes the provider context entry. -/
def CartService.clearCart (userId : String) (now : Int) (st : UserState) :
    Except String UserState :=
  match st.cart with
  | none => .error ErrorMessages.cartNotFound
  | some cart =>
    let cart1 := storeUpdate { cart with items := [] } now
    .ok { cart := some cart1, context := none }

/-- `CartService.setTaxContext` (one sequencer task). -/
def CartService.setTaxContext (userId : String) (taxContext : TaxContext) (now : Int)
    (st : UserState) : Cart × UserState :=
  let cart0 := (getCartOp userId now st).1
  let st0 := (getCartOp userId now st).2
  let cart1 := storeUpdate { cart0 with taxContext := some taxContext } now
  (cart1, { st0 with cart := some cart1 })

/-!
### Checkout Orchestrator (CartService.checkout)
-/

/-- Provider operations of `CommerceProviderInterface`, recorded in the
order checkout invokes them. -/
inductive ProviderCall
  | createCart
  | addItem
  | removeItem
  | getCart
  | validateContext
  | checkout
deriving DecidableEq, Repr

/-- Environment resolving the external calls one `CartService.checkout`
invocation can make.  `taxCalc` and `rollbackTax` are the outcomes of the
first and second `taxService.calculateTax` calls (checkout treats the tax
service as a black box); `createCart`, `getCart` and `providerCheckout`
the provider calls of steps 3-5; `cleanupFails` forces the step-9
best-effort `delete` calls to throw (the in-memory stores never throw,
but the source guards the deletes with their own try/catch and the
crash-safety scenario forces this failure). -/
structure CheckoutEnv where
  now : Int
  taxCalc : Except String TaxCalculationResult
  createCart : Except String ExternalCartContext
  getCart : Except String ExternalCart
  providerCheckout : Except String CheckoutResult
  cleanupFails : Bool
  rollbackTax : Except String TaxCalculationResult

/-- The outcome of one `CartService.checkout` invocation: the value
returned to the caller (`Except.error` = the task's promise rejected, an
exception escaped to the caller), the store entries for the user
afterwards, and the provider operations invoked. -/
structure CheckoutOutcome where
  result : Except String CheckoutResult
  state : UserState
  calls : List ProviderCall
deriving Repr

/-- The failed `CheckoutResult` literal that checkout's guard paths build
(zero totals, no order id, the given items and error message). -/
def failedCheckoutResult (userId : String) (items : List CartItem) (error : String) :
    CheckoutResult :=
  { orderId := none, userId := userId, subtotal := 0, taxes := [], totalTax := 0,
    total := 0, status := .failed, items := items, completedAt := none,
    error := some error }

/-- The in-progress guard of checkout (lines 227-247): blocked when the
status is `in_progress` and the elapsed time since `checkoutStartedAt` is
under 60000 ms; a missing `checkoutStartedAt` makes the elapsed time
`Infinity`, which is not under the bound, so the call is not blocked. -/
def checkoutInProgressBlocked (cart : Cart) (now : Int) : Bool :=
  cart.checkoutStatus == .in_progress &&
    (match cart.checkoutStartedAt with
    | some startedAt => decide (now - startedAt < 60000)
    | none => false)

/-- `CartService.validateCartMatch`: item-count equality, then per-item
existence and quantity equality against the external list; returns the
thrown `CheckoutError` message, `none` when the carts match. -/
def validateCartMatch (cartItems externalItems : List CartItem) : Option String :=
  if cartItems.length ≠ externalItems.length then
    some ErrorMessages.syncValidationItemCount
  else if cartItems.any
      (fun item =>
        match externalItems.find? (fun e => e.productId == item.productId) with
        | none => true
        | some extItem => extItem.quantity != item.quantity) then
    some ErrorMessages.syncValidationItemMismatch
  else
    none

/-- The catch handler of checkout (lines 332-353): roll the cart back to
`failed` recording the message, write it back, recompute tax, and return a
failed tagged result — unless that second tax calculation itself throws,
in which case the exception escapes the handler and the task rejects. -/
def checkoutCatch (userId : String) (env : CheckoutEnv) (errMsg : String)
    (cart : Cart) (ctx : Option ExternalCartContext) (calls : List ProviderCall) :
    CheckoutOutcome :=
  let cart1 := storeUpdate
    { cart with checkoutStatus := .failed, checkoutError := some errMsg } env.now
  match env.rollbackTax with
  | .error e2 =>
    { result := .error e2, state := { cart := some cart1, context := ctx }, calls := calls }
  | .ok taxResult =>
    { result := .ok
        { orderId := none, userId := userId, subtotal := taxResult.subtotal,
          taxes := taxResult.taxes, totalTax := taxResult.totalTax,
          total := taxResult.total, status := .failed, items := cart.items,
          completedAt := none, error := some errMsg },
      state := { cart := some cart1, context := ctx }, calls := calls }

/-- The try-block of checkout, steps 1-9 (lines 263-331): mark
`in_progress` and persist before any external call; calculate tax; force a
fresh provider context (`createAndSyncContext`); fetch and validate the
external cart; invoke the provider checkout; on provider failure mark
`failed` and return a failed result; on success assemble the final result,
mark `completed` and cache it, then best-effort delete the cart and
context entries (a cleanup failure is caught and ignored).  The item list
is never mutated during checkout, so `cart.items` (the entry cart's list)
stands wherever the source reads the shared cart object's items. -/
def checkoutAttempt (userId : String) (env : CheckoutEnv)
    (ctx0 : Option ExternalCartContext) (cart : Cart) : CheckoutOutcome :=
  let cart1 := storeUpdate
    { cart with checkoutStatus := .in_progress, checkoutStartedAt := some env.now }
    env.now
  match env.taxCalc with
  | .error e => checkoutCatch userId env e cart1 ctx0 []
  | .ok taxResult =>
    match env.createCart with
    | .error e => checkoutCatch userId env e cart1 ctx0 [.createCart]
    | .ok context =>
      let cart2 := { cart1 with externalCartId := some context.contextId }
      match env.getCart with
      | .error e => checkoutCatch userId env e cart2 (some context) [.createCart, .getCart]
      | .ok externalCart =>
        match validateCartMatch cart.items externalCart.items with
        | some msg =>
          checkoutCatch userId env msg cart2 (some context) [.createCart, .getCart]
        | none =>
          match env.providerCheckout with
          | .error e =>
            checkoutCatch userId env e cart2 (some context)
              [.createCart, .getCart, .checkout]
          | .ok providerResult =>
            if providerResult.status = .failed then
              let errMsg := jsOrString providerResult.error
                ErrorMessages.providerCheckoutFailed
              let cart3 := storeUpdate
                { cart2 with checkoutStatus := .failed, checkoutError := some errMsg }
                env.now
              { result := .ok
                  { orderId := none, userId := userId,
                    subtotal := taxResult.subtotal, taxes := taxResult.taxes,
                    totalTax := taxResult.totalTax, total := taxResult.total,
                    status := .failed, items := cart.items, completedAt := none,
                    error := some errMsg },
                state := { cart := some cart3, context := some context },
                calls := [.createCart, .getCart, .checkout] }
            else
              let result : CheckoutResult :=
                { orderId := providerResult.orderId, userId := providerResult.userId,
                  subtotal := taxResult.subtotal, taxes := taxResult.taxes,
                  totalTax := taxResult.totalTax, total := taxResult.total,
                  status := .completed, items := providerResult.items,
                  completedAt := providerResult.completedAt, error := none }
              let cart3 := storeUpdate
                { cart2 with
                  checkoutStatus := .completed,
                  checkoutCompletedAt := some env.now,
                  checkoutResult := some result }
                env.now
              if env.cleanupFails then
                { result := .ok result,
                  state := { cart := some cart3, context := some context },
                  calls := [.createCart, .getCart, .checkout] }
              else
                { result := .ok result, state := { cart := none, context := none },
                  calls := [.createCart, .getCart, .checkout] }

/-- `CartService.checkout` (one sequencer task, lines 191-355): the guard
cascade — missing cart, idempotency short-circuit on `completed`,
in-progress grace period, empty cart — and then the attempt. -/
def CartService.checkout (userId : String) (env : CheckoutEnv) (st : UserState) :
    CheckoutOutcome :=
  match st.cart with
  | none =>
    { result := .ok (failedCheckoutResult userId [] ErrorMessages.cartNotFound),
      state := st, calls := [] }
  | some cart =>
    if cart.checkoutStatus = .completed then
      match cart.checkoutResult with
      | some cached => { result := .ok cached, state := st, calls := [] }
      | none =>
        { result := .ok
            (failedCheckoutResult userId cart.items ErrorMessages.cartAlreadyCheckedOut),
          state := st, calls := [] }
    else if checkoutInProgressBlocked cart env.now then
      { result := .ok
          (failedCheckoutResult userId cart.items ErrorMessages.checkoutInProgress),
        state := st, calls := [] }
    else if cart.items.length = 0 then
      { result := .ok (failedCheckoutResult userId [] ErrorMessages.emptyCart),
        state := st, calls := [] }
    else
      checkoutAttempt userId env st.context cart

/-- The first exception raised inside checkout's try-block for a given
environment and local item list, following the order of steps 2-5: the
tax calculation, the context creation, the external-cart fetch, the sync
validation, the provider checkout.  `none` when no step throws (a
provider checkout that reports failure returns a tagged result and is not
an exception). -/
def attemptException (env : CheckoutEnv) (items : List CartItem) : Option String :=
  match env.taxCalc with
  | .error e => some e
  | .ok _ =>
    match env.createCart with
    | .error e => some e
    | .ok _ =>
      match env.getCart with
      | .error e => some e
      | .ok externalCart =>
        match validateCartMatch items externalCart.items with
        | some msg => some msg
        | none =>
          match env.providerCheckout with
          | .error e => some e
          | .ok _ => none

/-!
### Cleanup Sweeper (CartCleanupService.cleanupExpiredCarts)
-/

/-- One cart's treatment in a `cleanupExpiredCarts` pass: `none` when the
entry is deleted, otherwise the entry as left in the store.  `completed`
carts are deleted immediately; `failed` carts are deleted once
`checkoutStartedAt` (defaulted to 0) is over an hour old; stuck
`in_progress` carts past five minutes are marked `failed` with the
timeout error and written back through `update` (which refreshes
`lastAccessedAt`); finally carts whose `lastAccessedAt` is over 24 hours
old are deleted. -/
def cleanupCartEntry (now : Int) (cart : Cart) : Option Cart :=
  if cart.checkoutStatus = .completed then
    none
  else if cart.checkoutStatus = .failed ∧
      now - (cart.checkoutStartedAt.getD 0) > 60 * 60 * 1000 then
    none
  else
    let cart1 :=
      if cart.checkoutStatus = .in_progress ∧
          now - (cart.checkoutStartedAt.getD 0) > 5 * 60 * 1000 then
        storeUpdate
          { cart with
            checkoutStatus := .failed,
            checkoutError := some ErrorMessages.checkoutTimeout } now
      else
        cart
    if cart1.lastAccessedAt < now - 24 * 60 * 60 * 1000 then none else some cart1

/-- A full `cleanupExpiredCarts` pass over the cart store (entries in map
iteration order); the paired context-store deletions are not modelled as
no claim consults them. -/
def cleanupExpiredCarts (now : Int) (carts : List (String × Cart)) :
    List (String × Cart) :=
  carts.filterMap (fun entry => (cleanupCartEntry now entry.2).map (fun c => (entry.1, c)))

def c9Items : List CartItem :=
  [ { productId := "prod-1", name := "Smartphone", type := .device, quantity := 1, price := 99999/100 },
    { productId := "prod-2", name := "Case", type := .accessory, quantity := 1, price := 7999/100 } ]

def c9Context : TaxContext :=
  { jurisdiction := "CA-ON", customerId := none, calculationDate := 1704067200000 }

/-- The data-model invariant of C8: `checkoutResult` is set if and only if
the checkout status is `completed`. -/
def checkoutResultInvariant (c : Cart) : Prop :=
  c.checkoutResult.isSome = true ↔ c.checkoutStatus = CheckoutStatus.completed

/-!
### Concrete sample data used by the witness instantiations
-/

def wItem : CartItem :=
  { productId := "p1", name := "Phone", type := .device, quantity := 1, price := 999 }

def wCartPending : Cart :=
  { id := "cart_1_u", userId := "u", items := [wItem], createdAt := 0, updatedAt := 0,
    lastAccessedAt := 0, externalCartId := none, taxContext := none,
    syncStatus := .synced, lastSyncedAt := none, lastSyncError := none,
    checkoutStatus := .pending, checkoutStartedAt := none, checkoutCompletedAt := none,
    checkoutResult := none, checkoutError := none }

def wResult : CheckoutResult :=
  { orderId := some "order_1", userId := "u", subtotal := 999, taxes := [], totalTax := 0,
    total := 999, status := .completed, items := [wItem], completedAt := some 5,
    error := none }

def wCartCompleted : Cart :=
  { wCartPending with checkoutStatus := .completed, checkoutResult := some wResult }

def wCtx : ExternalCartContext :=
  { contextId := "ctx1", cartId := "c1", provider := "salesforce", createdAt := 0,
    expiresAt := 10000000, isExpired := false }

def wTax : TaxCalculationResult :=
  { subtotal := 999, taxes := [], totalTax := 0, total := 999 }

def wEnv : CheckoutEnv :=
  { now := 100, taxCalc := .ok wTax, createCart := .ok wCtx,
    getCart := .ok { cartId := "c1", items := [wItem] },
    providerCheckout := .ok wResult, cleanupFails := false, rollbackTax := .ok wTax }

def c3Env : CheckoutEnv :=
  { now := 100, taxCalc := .error "tax engine offline", createCart := .ok wCtx,
    getCart := .ok { cartId := "c1", items := [wItem] },
    providerCheckout := .ok wResult, cleanupFails := false,
    rollbackTax := .error "tax engine offline" }

def wEnvCF : CheckoutEnv := { wEnv with cleanupFails := true }

def c3EnvOk : CheckoutEnv := { c3Env with rollbackTax := .ok wTax }

def wItemB : CartItem :=
  { productId := "p2", name := "Case", type := .accessory, quantity := 1, price := 79 }

def wSyncEnv : SyncEnv :=
  { now := 50, validateContext := .ok true, createCart := .ok wCtx,
    getCart := .error "External provider context expired: ctx1",
    removeFail := fun _ => none, addFail := fun _ => none }

def wCartEmpty : Cart := { wCartPending with items := [] }

def wCartStuck : Cart :=
  { wCartPending with checkoutStatus := .in_progress, checkoutStartedAt := some 0 }

def wCartStuckNoStart : Cart :=
  { wCartPending with checkoutStatus := .in_progress, checkoutStartedAt := none }

lemma checkout_no_cart (u : String) (env : CheckoutEnv) (st : UserState)
    (hc : st.cart = none) :
    CartService.checkout u env st =
      { result := .ok (failedCheckoutResult u [] ErrorMessages.cartNotFound),
        state := st, calls := [] } := by
  simp only [CartService.checkout, hc]

lemma checkout_completed_eq (u : String) (env : CheckoutEnv) (st : UserState) (cart : Cart)
    (hc : st.cart = some cart) (hstat : cart.checkoutStatus = .completed) :
    CartService.checkout u env st =
      (match cart.checkoutResult with
      | some cached => { result := .ok cached, state := st, calls := [] }
      | none =>
        { result := .ok
            (failedCheckoutResult u cart.items ErrorMessages.cartAlreadyCheckedOut),
          state := st, calls := [] }) := by
  simp only [CartService.checkout, hc, hstat, if_pos]

lemma checkout_cached (u : String) (env : CheckoutEnv) (st : UserState) (cart : Cart)
    (r : CheckoutResult) (hc : st.cart = some cart)
    (hstat : cart.checkoutStatus = .completed) (hres : cart.checkoutResult = some r) :
    CartService.checkout u env st = { result := .ok r, state := st, calls := [] } := by
  rw [checkout_completed_eq u env st cart hc hstat, hres]

lemma checkoutCatch_rollback_ok (u : String) (env : CheckoutEnv) (msg : String)
    (cart : Cart) (ctx : Option ExternalCartContext) (calls : List ProviderCall)
    (taxR : TaxCalculationResult) (hroll : env.rollbackTax = .ok taxR) :
    checkoutCatch u env msg cart ctx calls =
      { result := .ok
          { orderId := none, userId := u, subtotal := taxR.subtotal,
            taxes := taxR.taxes, totalTax := taxR.totalTax, total := taxR.total,
            status := .failed, items := cart.items, completedAt := none,
            error := some msg },
        state :=
          { cart := some (storeUpdate
              { cart with checkoutStatus := .failed, checkoutError := some msg } env.now),
            context := ctx },
        calls := calls } := by
  simp only [checkoutCatch, hroll, storeUpdate]

lemma checkoutCatch_ok_failed (u : String) (env : CheckoutEnv) (msg : String)
    (cart : Cart) (ctx : Option ExternalCartContext) (calls : List ProviderCall)
    (r : CheckoutResult)
    (h : (checkoutCatch u env msg cart ctx calls).result = .ok r) :
    r.status = .failed := by
  unfold checkoutCatch at h
  cases henv : env.rollbackTax with
  | error e => rw [henv] at h; simp at h
  | ok t =>
    rw [henv] at h
    simp only [Except.ok.injEq] at h
    subst h
    rfl
lemma checkoutAttempt_ok_completed (u : String) (env : CheckoutEnv)
    (ctx0 : Option ExternalCartContext) (cart : Cart) (r : CheckoutResult)
    (h : (checkoutAttempt u env ctx0 cart).result = .ok r)
    (hst : r.status = .completed) :
    (checkoutAttempt u env ctx0 cart).calls = [.createCart, .getCart, .checkout] ∧
    ((env.cleanupFails = true ∧
        ∃ c', (checkoutAttempt u env ctx0 cart).state.cart = some c' ∧
          c'.checkoutStatus = .completed ∧ c'.checkoutResult = some r) ∨
      (env.cleanupFails = false ∧
        (checkoutAttempt u env ctx0 cart).state = { cart := none, context := none })) := by
  unfold checkoutAttempt at h ⊢
  cases h1 : env.taxCalc with
  | error e =>
    rw [h1] at h
    simp only [] at h
    have := checkoutCatch_ok_failed _ _ _ _ _ _ _ h
    rw [hst] at this
    exact absurd this (by simp)
  | ok taxResult =>
    rw [h1] at h
    simp only [] at h ⊢
    cases h2 : env.createCart with
    | error e =>
      rw [h2] at h
      simp only [] at h
      have := checkoutCatch_ok_failed _ _ _ _ _ _ _ h
      rw [hst] at this
      exact absurd this (by simp)
    | ok context =>
      rw [h2] at h
      simp only [] at h ⊢
      cases h3 : env.getCart with
      | error e =>
        rw [h3] at h
        simp only [] at h
        have := checkoutCatch_ok_failed _ _ _ _ _ _ _ h
        rw [hst] at this
        exact absurd this (by simp)
      | ok externalCart =>
        rw [h3] at h
        simp only [] at h ⊢
        cases h4 : validateCartMatch cart.items externalCart.items with
        | some msg =>
          rw [h4] at h
          simp only [] at h
          have := checkoutCatch_ok_failed _ _ _ _ _ _ _ h
          rw [hst] at this
          exact absurd this (by simp)
        | none =>
          rw [h4] at h
          simp only [] at h ⊢
          cases h5 : env.providerCheckout with
          | error e =>
            rw [h5] at h
            simp only [] at h
            have := checkoutCatch_ok_failed _ _ _ _ _ _ _ h
            rw [hst] at this
            exact absurd this (by simp)
          | ok providerResult =>
            rw [h5] at h
            simp only [] at h ⊢
            by_cases h6 : providerResult.status = .failed
            · rw [if_pos h6] at h
              simp only [Except.ok.injEq] at h
              rw [← h] at hst
              exact absurd hst (by simp)
            · rw [if_neg h6] at h ⊢
              cases h7 : env.cleanupFails with
              | true =>
                rw [h7] at h
                simp only [if_true] at h
                simp only [Except.ok.injEq] at h
                refine ⟨rfl, Or.inl ⟨rfl, ?_⟩⟩
                exact ⟨_, rfl, rfl, by rw [← h]; rfl⟩
              | false =>
                rw [h7] at h
                simp only [Bool.false_eq_true, if_false] at h
                simp only [Except.ok.injEq] at h
                exact ⟨rfl, Or.inr ⟨rfl, rfl⟩⟩


lemma checkout_blocked_eq (u : String) (env : CheckoutEnv) (st : UserState) (cart : Cart)
    (hc : st.cart = some cart) (hnc : cart.checkoutStatus ≠ .completed)
    (hb : checkoutInProgressBlocked cart env.now = true) :
    CartService.checkout u env st =
      { result := .ok
          (failedCheckoutResult u cart.items ErrorMessages.checkoutInProgress),
        state := st, calls := [] } := by
  simp only [CartService.checkout, hc, if_neg hnc, hb, if_pos]

lemma checkout_empty_eq (u : String) (env : CheckoutEnv) (st : UserState) (cart : Cart)
    (hc : st.cart = some cart) (hnc : cart.checkoutStatus ≠ .completed)
    (hnb : checkoutInProgressBlocked cart env.now = false)
    (he : cart.items.length = 0) :
    CartService.checkout u env st =
      { result := .ok (failedCheckoutResult u [] ErrorMessages.emptyCart),
        state := st, calls := [] } := by
  simp only [CartService.checkout, hc, if_neg hnc, hnb, Bool.false_eq_true, if_false,
    he, if_pos]

lemma checkout_run_eq (u : String) (env : CheckoutEnv) (st : UserState) (cart : Cart)
    (hc : st.cart = some cart) (hnc : cart.checkoutStatus ≠ .completed)
    (hnb : checkoutInProgressBlocked cart env.now = false)
    (hne : cart.items.length ≠ 0) :
    CartService.checkout u env st = checkoutAttempt u env st.context cart := by
  simp only [CartService.checkout, hc, if_neg hnc, hnb, Bool.false_eq_true, if_false,
    if_neg hne]

lemma checkout_ok_completed_cases (u : String) (env : CheckoutEnv) (st : UserState)
    (r : CheckoutResult) (h : (CartService.checkout u env st).result = .ok r)
    (hst : r.status = .completed) :
    (∃ cart, st.cart = some cart ∧ cart.checkoutStatus = .completed ∧
      cart.checkoutResult = some r ∧
      CartService.checkout u env st = { result := .ok r, state := st, calls := [] }) ∨
    ((CartService.checkout u env st).calls = [.createCart, .getCart, .checkout] ∧
      ((env.cleanupFails = true ∧
          ∃ c', (CartService.checkout u env st).state.cart = some c' ∧
            c'.checkoutStatus = .completed ∧ c'.checkoutResult = some r) ∨
        (env.cleanupFails = false ∧
          (CartService.checkout u env st).state = { cart := none, context := none }))) := by
  cases hc : st.cart with
  | none =>
    rw [checkout_no_cart u env st hc] at h
    simp only [Except.ok.injEq] at h
    rw [← h] at hst
    exact absurd hst (by simp [failedCheckoutResult])
  | some cart =>
    by_cases hcomp : cart.checkoutStatus = .completed
    · rw [checkout_completed_eq u env st cart hc hcomp] at h
      cases hres : cart.checkoutResult with
      | some cached =>
        rw [hres] at h
        simp only [Except.ok.injEq] at h
        subst h
        exact Or.inl ⟨cart, rfl, hcomp, hres, checkout_cached u env st cart _ hc hcomp hres⟩
      | none =>
        rw [hres] at h
        simp only [Except.ok.injEq] at h
        rw [← h] at hst
        exact absurd hst (by simp [failedCheckoutResult])
    · by_cases hb : checkoutInProgressBlocked cart env.now = true
      · rw [checkout_blocked_eq u env st cart hc hcomp hb] at h
        simp only [Except.ok.injEq] at h
        rw [← h] at hst
        exact absurd hst (by simp [failedCheckoutResult])
      · have hnb : checkoutInProgressBlocked cart env.now = false := by
          simpa using hb
        by_cases he : cart.items.length = 0
        · rw [checkout_empty_eq u env st cart hc hcomp hnb he] at h
          simp only [Except.ok.injEq] at h
          rw [← h] at hst
          exact absurd hst (by simp [failedCheckoutResult])
        · rw [checkout_run_eq u env st cart hc hcomp hnb he] at h
          rw [checkout_run_eq u env st cart hc hcomp hnb he]
          exact Or.inr (checkoutAttempt_ok_completed u env st.context cart r h hst)

/-- C1: for a `completed` cart, checkout returns the cached result when
present and otherwise an "already checked out" failure, with no provider
operation invoked and no state change; and after any checkout call that
returns a completed result, a second call returns either the identical
result or a failed result with no order id, again invoking no provider
operation — never a second order id. -/
theorem c1_checkout_idempotency :
    (∀ (u : String) (env : CheckoutEnv) (st : UserState) (cart : Cart),
      st.cart = some cart → cart.checkoutStatus = .completed →
        (CartService.checkout u env st).calls = [] ∧
        (CartService.checkout u env st).state = st ∧
        ((∃ r, cart.checkoutResult = some r ∧
            (CartService.checkout u env st).result = .ok r) ∨
          (cart.checkoutResult = none ∧
            (CartService.checkout u env st).result =
              .ok (failedCheckoutResult u cart.items
                ErrorMessages.cartAlreadyCheckedOut)))) ∧
    (∀ (u : String) (env1 env2 : CheckoutEnv) (st : UserState) (r1 : CheckoutResult),
      (CartService.checkout u env1 st).result = .ok r1 →
      r1.status = .completed →
        ∃ r2,
          (CartService.checkout u env2 (CartService.checkout u env1 st).state).result
              = .ok r2 ∧
          (CartService.checkout u env2 (CartService.checkout u env1 st).state).calls
              = [] ∧
          (r2 = r1 ∨ (r2.status = .failed ∧ r2.orderId = none))) := by
  constructor
  · intro u env st cart hc hcomp
    rw [checkout_completed_eq u env st cart hc hcomp]
    cases hres : cart.checkoutResult with
    | some cached => exact ⟨rfl, rfl, Or.inl ⟨cached, rfl, rfl⟩⟩
    | none => exact ⟨rfl, rfl, Or.inr ⟨rfl, rfl⟩⟩
  · intro u env1 env2 st r1 h hst
    rcases checkout_ok_completed_cases u env1 st r1 h hst with
      ⟨cart, hc, hcomp, hres, heq⟩ | ⟨_, hrest⟩
    · refine ⟨r1, ?_, ?_, Or.inl rfl⟩
      · rw [heq, checkout_cached u env2 st cart r1 hc hcomp hres]
      · rw [heq, checkout_cached u env2 st cart r1 hc hcomp hres]
    · rcases hrest with ⟨_, c', hsc, hcst, hcres⟩ | ⟨_, hstate⟩
      · refine ⟨r1, ?_, ?_, Or.inl rfl⟩
        · rw [checkout_cached u env2 _ c' r1 hsc hcst hcres]
        · rw [checkout_cached u env2 _ c' r1 hsc hcst hcres]
      · have hnone : (CartService.checkout u env1 st).state.cart = none := by
          rw [hstate]
        refine ⟨failedCheckoutResult u [] ErrorMessages.cartNotFound, ?_, ?_, Or.inr ⟨rfl, rfl⟩⟩
        · rw [checkout_no_cart u env2 _ hnone]
        · rw [checkout_no_cart u env2 _ hnone]

/-- C2: when the step-9 cleanup deletes fail after a successful checkout,
the store still holds the cart marked `completed` with the result cached
(the marking happened before cleanup), so every subsequent checkout call
returns the cached identical result and invokes no provider operation. -/
theorem c2_completed_cached_before_cleanup (u : String) (env : CheckoutEnv)
    (st : UserState) (r : CheckoutResult) (hcf : env.cleanupFails = true)
    (h : (CartService.checkout u env st).result = .ok r)
    (hst : r.status = .completed) :
    ∃ c', (CartService.checkout u env st).state.cart = some c' ∧
      c'.checkoutStatus = .completed ∧ c'.checkoutResult = some r ∧
      ∀ env2 : CheckoutEnv,
        CartService.checkout u env2 (CartService.checkout u env st).state =
          { result := .ok r, state := (CartService.checkout u env st).state,
            calls := [] } := by
  rcases checkout_ok_completed_cases u env st r h hst with
    ⟨cart, hc, hcomp, hres, heq⟩ | ⟨_, hrest⟩
  · refine ⟨cart, ?_, hcomp, hres, ?_⟩
    · rw [heq]
      exact hc
    · intro env2
      conv_lhs => rw [heq]
      rw [heq]
      exact checkout_cached u env2 st cart r hc hcomp hres
  · rcases hrest with ⟨_, c', hsc, hcst, hcres⟩ | ⟨hcf2, _⟩
    · refine ⟨c', hsc, hcst, hcres, ?_⟩
      intro env2
      exact checkout_cached u env2 _ c' r hsc hcst hcres
    · rw [hcf] at hcf2
      exact absurd hcf2 (by simp)

lemma checkoutCatch_state (u : String) (env : CheckoutEnv) (msg : String)
    (cart : Cart) (ctx : Option ExternalCartContext) (calls : List ProviderCall) :
    (checkoutCatch u env msg cart ctx calls).state =
      { cart := some (storeUpdate
          { cart with checkoutStatus := .failed, checkoutError := some msg } env.now),
        context := ctx } := by
  unfold checkoutCatch
  cases env.rollbackTax <;> rfl

lemma checkoutAttempt_ok_of_rollback (u : String) (env : CheckoutEnv)
    (ctx0 : Option ExternalCartContext) (cart : Cart) (taxR : TaxCalculationResult)
    (hroll : env.rollbackTax = .ok taxR) :
    ∃ r, (checkoutAttempt u env ctx0 cart).result = .ok r := by
  unfold checkoutAttempt
  cases h1 : env.taxCalc with
  | error e =>
    simp only []
    rw [checkoutCatch_rollback_ok u env e _ ctx0 [] taxR hroll]
    exact ⟨_, rfl⟩
  | ok taxResult =>
    simp only []
    cases h2 : env.createCart with
    | error e =>
      simp only []
      rw [checkoutCatch_rollback_ok u env e _ ctx0 _ taxR hroll]
      exact ⟨_, rfl⟩
    | ok context =>
      simp only []
      cases h3 : env.getCart with
      | error e =>
        simp only []
        rw [checkoutCatch_rollback_ok u env e _ _ _ taxR hroll]
        exact ⟨_, rfl⟩
      | ok externalCart =>
        simp only []
        cases h4 : validateCartMatch cart.items externalCart.items with
        | some msg =>
          simp only []
          rw [checkoutCatch_rollback_ok u env msg _ _ _ taxR hroll]
          exact ⟨_, rfl⟩
        | none =>
          simp only []
          cases h5 : env.providerCheckout with
          | error e =>
            simp only []
            rw [checkoutCatch_rollback_ok u env e _ _ _ taxR hroll]
            exact ⟨_, rfl⟩
          | ok providerResult =>
            simp only []
            by_cases h6 : providerResult.status = .failed
            · rw [if_pos h6]
              exact ⟨_, rfl⟩
            · rw [if_neg h6]
              by_cases h7 : env.cleanupFails
              · rw [if_pos h7]
                exact ⟨_, rfl⟩
              · rw [if_neg h7]
                exact ⟨_, rfl⟩

lemma checkout_ok_of_rollback (u : String) (env : CheckoutEnv) (st : UserState)
    (taxR : TaxCalculationResult) (hroll : env.rollbackTax = .ok taxR) :
    ∃ r, (CartService.checkout u env st).result = .ok r := by
  cases hc : st.cart with
  | none => exact ⟨_, by rw [checkout_no_cart u env st hc]⟩
  | some cart =>
    by_cases hcomp : cart.checkoutStatus = .completed
    · rw [checkout_completed_eq u env st cart hc hcomp]
      cases cart.checkoutResult with
      | some cached => exact ⟨cached, rfl⟩
      | none => exact ⟨_, rfl⟩
    · by_cases hb : checkoutInProgressBlocked cart env.now = true
      · rw [checkout_blocked_eq u env st cart hc hcomp hb]
        exact ⟨_, rfl⟩
      · have hnb : checkoutInProgressBlocked cart env.now = false := by simpa using hb
        by_cases he : cart.items.length = 0
        · rw [checkout_empty_eq u env st cart hc hcomp hnb he]
          exact ⟨_, rfl⟩
        · rw [checkout_run_eq u env st cart hc hcomp hnb he]
          exact checkoutAttempt_ok_of_rollback u env st.context cart taxR hroll

lemma checkoutAttempt_exception (u : String) (env : CheckoutEnv)
    (ctx0 : Option ExternalCartContext) (cart : Cart) (taxR : TaxCalculationResult)
    (hroll : env.rollbackTax = .ok taxR) (msg : String)
    (hmsg : attemptException env cart.items = some msg) :
    (checkoutAttempt u env ctx0 cart).result = .ok
      { orderId := none, userId := u, subtotal := taxR.subtotal,
        taxes := taxR.taxes, totalTax := taxR.totalTax, total := taxR.total,
        status := .failed, items := cart.items, completedAt := none,
        error := some msg } ∧
    ∃ c', (checkoutAttempt u env ctx0 cart).state.cart = some c' ∧
      c'.checkoutStatus = .failed ∧ c'.checkoutError = some msg := by
  unfold checkoutAttempt
  unfold attemptException at hmsg
  cases h1 : env.taxCalc with
  | error e =>
    rw [h1] at hmsg
    simp only [Option.some.injEq] at hmsg
    subst hmsg
    simp only []
    rw [checkoutCatch_rollback_ok u env e _ ctx0 [] taxR hroll]
    exact ⟨rfl, _, rfl, rfl, rfl⟩
  | ok taxResult =>
    rw [h1] at hmsg
    simp only [] at hmsg
    simp only []
    cases h2 : env.createCart with
    | error e =>
      rw [h2] at hmsg
      simp only [Option.some.injEq] at hmsg
      subst hmsg
      simp only []
      rw [checkoutCatch_rollback_ok u env e _ ctx0 _ taxR hroll]
      exact ⟨rfl, _, rfl, rfl, rfl⟩
    | ok context =>
      rw [h2] at hmsg
      simp only [] at hmsg
      simp only []
      cases h3 : env.getCart with
      | error e =>
        rw [h3] at hmsg
        simp only [Option.some.injEq] at hmsg
        subst hmsg
        simp only []
        rw [checkoutCatch_rollback_ok u env e _ _ _ taxR hroll]
        exact ⟨rfl, _, rfl, rfl, rfl⟩
      | ok externalCart =>
        rw [h3] at hmsg
        simp only [] at hmsg
        simp only []
        cases h4 : validateCartMatch cart.items externalCart.items with
        | some vmsg =>
          rw [h4] at hmsg
          simp only [Option.some.injEq] at hmsg
          subst hmsg
          simp only []
          rw [checkoutCatch_rollback_ok u env vmsg _ _ _ taxR hroll]
          exact ⟨rfl, _, rfl, rfl, rfl⟩
        | none =>
          rw [h4] at hmsg
          simp only [] at hmsg
          simp only []
          cases h5 : env.providerCheckout with
          | error e =>
            rw [h5] at hmsg
            simp only [Option.some.injEq] at hmsg
            subst hmsg
            simp only []
            rw [checkoutCatch_rollback_ok u env e _ _ _ taxR hroll]
            exact ⟨rfl, _, rfl, rfl, rfl⟩
          | ok providerResult =>
            rw [h5] at hmsg
            simp at hmsg

/-- C3 counterexample: with a tax service whose `calculateTax` throws (at
step 2 and again when the catch handler recomputes tax for the failed
result), the exception escapes the handler and checkout rejects — the
caller receives the exception, not a tagged failed result. -/
theorem c3_counterexample_checkout_throws :
    (CartService.checkout "u" c3Env
        { cart := some wCartPending, context := none }).result =
      Except.error "tax engine offline" := rfl

/-- C3 (amended): provided the rollback path's tax recalculation returns
normally, checkout never rejects, and any exception raised during the
attempt is caught, the cart is rolled back to `failed` with the message
recorded, and a failed tagged result carrying that message is returned. -/
theorem c3_checkout_exception_handling (u : String) (env : CheckoutEnv)
    (st : UserState) (taxR : TaxCalculationResult)
    (hroll : env.rollbackTax = .ok taxR) :
    (∃ r, (CartService.checkout u env st).result = .ok r) ∧
    (∀ cart, st.cart = some cart →
      cart.checkoutStatus ≠ .completed →
      checkoutInProgressBlocked cart env.now = false →
      cart.items.length ≠ 0 →
      ∀ msg, attemptException env cart.items = some msg →
        (CartService.checkout u env st).result = .ok
          { orderId := none, userId := u, subtotal := taxR.subtotal,
            taxes := taxR.taxes, totalTax := taxR.totalTax, total := taxR.total,
            status := .failed, items := cart.items, completedAt := none,
            error := some msg } ∧
        ∃ c', (CartService.checkout u env st).state.cart = some c' ∧
          c'.checkoutStatus = .failed ∧ c'.checkoutError = some msg) := by
  refine ⟨checkout_ok_of_rollback u env st taxR hroll, ?_⟩
  intro cart hc hnc hnb hne msg hmsg
  rw [checkout_run_eq u env st cart hc hnc hnb hne]
  exact checkoutAttempt_exception u env st.context cart taxR hroll msg hmsg

/-- C6: checkout on an empty cart fails with the empty-cart error, mutates
no state, and invokes no provider operation. -/
theorem c6_empty_cart_checkout (u : String) (env : CheckoutEnv) (st : UserState)
    (cart : Cart) (hc : st.cart = some cart) (hitems : cart.items = [])
    (hnc : cart.checkoutStatus ≠ .completed)
    (hnb : checkoutInProgressBlocked cart env.now = false) :
    CartService.checkout u env st =
      { result := .ok (failedCheckoutResult u [] ErrorMessages.emptyCart),
        state := st, calls := [] } :=
  checkout_empty_eq u env st cart hc hnc hnb (by rw [hitems]; rfl)

lemma checkoutAttempt_state_startedAt (u : String) (env : CheckoutEnv)
    (ctx0 : Option ExternalCartContext) (cart : Cart) (c' : Cart)
    (h : (checkoutAttempt u env ctx0 cart).state.cart = some c') :
    c'.checkoutStartedAt = some env.now := by
  unfold checkoutAttempt at h
  cases h1 : env.taxCalc with
  | error e =>
    rw [h1] at h
    simp only [] at h
    rw [checkoutCatch_state] at h
    simp only [Option.some.injEq] at h
    rw [← h]
    rfl
  | ok taxResult =>
    rw [h1] at h
    simp only [] at h
    cases h2 : env.createCart with
    | error e =>
      rw [h2] at h
      simp only [] at h
      rw [checkoutCatch_state] at h
      simp only [Option.some.injEq] at h
      rw [← h]
      rfl
    | ok context =>
      rw [h2] at h
      simp only [] at h
      cases h3 : env.getCart with
      | error e =>
        rw [h3] at h
        simp only [] at h
        rw [checkoutCatch_state] at h
        simp only [Option.some.injEq] at h
        rw [← h]
        rfl
      | ok externalCart =>
        rw [h3] at h
        simp only [] at h
        cases h4 : validateCartMatch cart.items externalCart.items with
        | some vmsg =>
          rw [h4] at h
          simp only [] at h
          rw [checkoutCatch_state] at h
          simp only [Option.some.injEq] at h
          rw [← h]
          rfl
        | none =>
          rw [h4] at h
          simp only [] at h
          cases h5 : env.providerCheckout with
          | error e =>
            rw [h5] at h
            simp only [] at h
            rw [checkoutCatch_state] at h
            simp only [Option.some.injEq] at h
            rw [← h]
            rfl
          | ok providerResult =>
            rw [h5] at h
            simp only [] at h
            by_cases h6 : providerResult.status = .failed
            · rw [if_pos h6] at h
              simp only [Option.some.injEq] at h
              rw [← h]
              rfl
            · rw [if_neg h6] at h
              cases h7 : env.cleanupFails with
              | true =>
                rw [h7] at h
                simp only [if_true] at h
                simp only [Option.some.injEq] at h
                rw [← h]
                rfl
              | false =>
                rw [h7] at h
                simp only [Bool.false_eq_true, if_false] at h
                simp at h

/-- C10: an `in_progress` cart with no `checkoutStartedAt` is treated as
infinitely old, so checkout is not rejected as in-progress: it falls
through the guard and (on a nonempty cart) retries immediately, stamping a
fresh start time. -/
theorem c10_missing_started_at (u : String) (env : CheckoutEnv) (st : UserState)
    (cart : Cart) (hc : st.cart = some cart)
    (hip : cart.checkoutStatus = .in_progress)
    (hsa : cart.checkoutStartedAt = none) :
    CartService.checkout u env st =
      (if cart.items.length = 0 then
        { result := .ok (failedCheckoutResult u [] ErrorMessages.emptyCart),
          state := st, calls := [] }
      else checkoutAttempt u env st.context cart) ∧
    (cart.items.length ≠ 0 →
      ∀ c', (CartService.checkout u env st).state.cart = some c' →
        c'.checkoutStartedAt = some env.now) := by
  have hnc : cart.checkoutStatus ≠ .completed := by rw [hip]; simp
  have hnb : checkoutInProgressBlocked cart env.now = false := by
    simp [checkoutInProgressBlocked, hsa]
  constructor
  · by_cases he : cart.items.length = 0
    · rw [if_pos he]
      exact checkout_empty_eq u env st cart hc hnc hnb he
    · rw [if_neg he]
      exact checkout_run_eq u env st cart hc hnc hnb he
  · intro hne c' hcart
    rw [checkout_run_eq u env st cart hc hnc hnb hne] at hcart
    exact checkoutAttempt_state_startedAt u env st.context cart c' hcart

/-- C7: a cleanup pass turns a stuck `in_progress` cart (started more than
five minutes ago) into a `failed` cart with the timeout error, keeps it in
the store, and a subsequent checkout for that user proceeds past the
guards instead of being rejected as in-progress. -/
theorem c7_stuck_checkout_recovery (now : Int) (cart : Cart) (t : Int)
    (hip : cart.checkoutStatus = .in_progress)
    (hsa : cart.checkoutStartedAt = some t) (hold : now - t > 300000) :
    ∃ c', cleanupCartEntry now cart = some c' ∧
      c'.checkoutStatus = .failed ∧
      c'.checkoutError = some ErrorMessages.checkoutTimeout ∧
      (∀ (u : String) (carts : List (String × Cart)),
        (u, cart) ∈ carts → (u, c') ∈ cleanupExpiredCarts now carts) ∧
      (∀ (u : String) (env : CheckoutEnv) (ctx : Option ExternalCartContext),
        checkoutInProgressBlocked c' env.now = false ∧
        (c'.items.length ≠ 0 →
          CartService.checkout u env { cart := some c', context := ctx } =
            checkoutAttempt u env ctx c')) := by
  have hentry : cleanupCartEntry now cart =
      some (storeUpdate
        { cart with
          checkoutStatus := .failed,
          checkoutError := some ErrorMessages.checkoutTimeout } now) := by
    simp only [cleanupCartEntry, hip, hsa, Option.getD_some, storeUpdate]
    rw [if_neg (by simp), if_neg (by simp),
      if_pos (⟨trivial, by omega⟩ : True ∧ now - t > 5 * 60 * 1000)]
    rw [if_neg (show ¬(now < now - 24 * 60 * 60 * 1000) by omega)]
  refine ⟨_, hentry, rfl, rfl, ?_, ?_⟩
  · intro u carts hmem
    exact List.mem_filterMap.mpr ⟨(u, cart), hmem, by rw [hentry]; rfl⟩
  · intro u env ctx
    have hblocked : checkoutInProgressBlocked
        (storeUpdate
          { cart with
            checkoutStatus := .failed,
            checkoutError := some ErrorMessages.checkoutTimeout } now) env.now = false := by
      simp [checkoutInProgressBlocked, storeUpdate]
    refine ⟨hblocked, ?_⟩
    intro hne
    exact checkout_run_eq u env _ _ rfl (by simp [storeUpdate]) hblocked hne

lemma syncObtainContext_shape (env : SyncEnv) (cart : Cart)
    (ctx : Option ExternalCartContext) :
    (∀ e ce xe, syncObtainContext env cart ctx = .error (e, ce, xe) →
      ∃ ext, ce = { cart with externalCartId := ext }) ∧
    (∀ ce xe, syncObtainContext env cart ctx = .ok (ce, xe) →
      ∃ ext, ce = { cart with externalCartId := ext }) := by
  unfold syncObtainContext
  cases hg : (contextStoreGet ctx env.now).1 with
  | none =>
    cases h1 : env.createCart with
    | error e =>
      refine ⟨fun e' ce xe h => ?_, fun ce xe h => by simp at h⟩
      simp only [Except.error.injEq, Prod.mk.injEq] at h
      exact ⟨cart.externalCartId, by rw [← h.2.1]⟩
    | ok c =>
      refine ⟨fun e' ce xe h => by simp at h, fun ce xe h => ?_⟩
      simp only [Except.ok.injEq, Prod.mk.injEq] at h
      exact ⟨some c.contextId, by rw [← h.1]⟩
  | some c0 =>
    cases h1 : env.validateContext with
    | error e =>
      refine ⟨fun e' ce xe h => ?_, fun ce xe h => by simp at h⟩
      simp only [Except.error.injEq, Prod.mk.injEq] at h
      exact ⟨cart.externalCartId, by rw [← h.2.1]⟩
    | ok b =>
      cases b with
      | true =>
        refine ⟨fun e' ce xe h => by simp at h, fun ce xe h => ?_⟩
        simp only [Except.ok.injEq, Prod.mk.injEq] at h
        exact ⟨cart.externalCartId, by rw [← h.1]⟩
      | false =>
        cases h2 : env.createCart with
        | error e =>
          refine ⟨fun e' ce xe h => ?_, fun ce xe h => by simp at h⟩
          simp only [Except.error.injEq, Prod.mk.injEq] at h
          exact ⟨cart.externalCartId, by rw [← h.2.1]⟩
        | ok c =>
          refine ⟨fun e' ce xe h => by simp at h, fun ce xe h => ?_⟩
          simp only [Except.ok.injEq, Prod.mk.injEq] at h
          exact ⟨some c.contextId, by rw [← h.1]⟩

lemma syncApplyDiff_cart (env : SyncEnv) (cart1 : Cart)
    (ctx1 : Option ExternalCartContext) :
    (∀ e ce xe, syncApplyDiff env cart1 ctx1 = .error (e, ce, xe) → ce = cart1) ∧
    (∀ ce xe, syncApplyDiff env cart1 ctx1 = .ok (ce, xe) → ce = cart1) := by
  unfold syncApplyDiff
  cases h1 : env.getCart with
  | error e =>
    refine ⟨fun e' ce xe h => ?_, fun ce xe h => by simp at h⟩
    simp only [Except.error.injEq, Prod.mk.injEq] at h
    rw [← h.2.1]
  | ok externalCart =>
    simp only []
    cases h2 : (findItemsToRemove cart1.items externalCart.items).findSome?
        (fun item => env.removeFail item.productId) with
    | some e =>
      refine ⟨fun e' ce xe h => ?_, fun ce xe h => by simp at h⟩
      simp only [Except.error.injEq, Prod.mk.injEq] at h
      rw [← h.2.1]
    | none =>
      simp only []
      cases h3 : (findItemsToAdd cart1.items externalCart.items).findSome?
          (fun item => env.addFail item.productId) with
      | some e =>
        refine ⟨fun e' ce xe h => ?_, fun ce xe h => by simp at h⟩
        simp only [Except.error.injEq, Prod.mk.injEq] at h
        rw [← h.2.1]
      | none =>
        refine ⟨fun e' ce xe h => by simp at h, fun ce xe h => ?_⟩
        simp only [Except.ok.injEq, Prod.mk.injEq] at h
        rw [← h.1]

lemma syncTryBlock_error_shape (env : SyncEnv) (cart : Cart)
    (ctx : Option ExternalCartContext) (e : String) (ce : Cart)
    (xe : Option ExternalCartContext)
    (h : syncTryBlock env cart ctx = .error (e, ce, xe)) :
    ∃ ext, ce = { cart with externalCartId := ext } := by
  unfold syncTryBlock at h
  cases ho : syncObtainContext env cart ctx with
  | error x =>
    rw [ho] at h
    simp only [Except.error.injEq] at h
    rw [h] at ho
    exact (syncObtainContext_shape env cart ctx).1 e ce xe ho
  | ok pair =>
    rw [ho] at h
    simp only [] at h
    obtain ⟨ext, hext⟩ := (syncObtainContext_shape env cart ctx).2 pair.1 pair.2
      (by rw [ho])
    have := (syncApplyDiff_cart env pair.1 pair.2).1 e ce xe (by rw [← h])
    exact ⟨ext, by rw [this, hext]⟩

lemma sync_error_eq (env : SyncEnv) (cart : Cart) (ctx : Option ExternalCartContext)
    (e : String) (ce : Cart) (xe : Option ExternalCartContext)
    (h : syncTryBlock env cart ctx = .error (e, ce, xe)) :
    syncToExternalProvider env cart ctx =
      ({ ce with syncStatus := .pending, lastSyncError := some e }, xe) := by
  unfold syncToExternalProvider
  rw [h]

lemma mem_upsertItem (items : List CartItem) (item : CartItem) :
    item ∈ upsertItem items item := by
  induction items with
  | nil => simp [upsertItem]
  | cons i rest ih =>
    unfold upsertItem
    by_cases hp : i.productId == item.productId
    · rw [if_pos hp]
      exact List.mem_cons_self _ _
    · rw [if_neg hp]
      exact List.mem_cons_of_mem _ ih

lemma getCartOp_context (u : String) (now : Int) (st : UserState) :
    (getCartOp u now st).2.context = st.context := by
  unfold getCartOp
  cases st.cart <;> rfl

lemma addItemLocal_context (u : String) (item : CartItem) (now : Int)
    (st : UserState) : (addItemLocal u item now st).2.context = st.context := by
  show (getCartOp u now st).2.context = st.context
  exact getCartOp_context u now st

lemma addItem_sync_failure (u : String) (item : CartItem) (env : SyncEnv)
    (st : UserState) (e : String) (ce : Cart) (xe : Option ExternalCartContext)
    (hval : validateCartItem item = none)
    (hsync : syncTryBlock env (addItemLocal u item env.now st).1 st.context =
      .error (e, ce, xe)) :
    ∃ c st', CartService.addItem u item env st = .ok (c, st') ∧
      c.syncStatus = .pending ∧ c.lastSyncError = some e ∧
      c.items = (addItemLocal u item env.now st).1.items ∧
      item ∈ c.items ∧ st' = { cart := some c, context := xe } := by
  obtain ⟨ext, hshape⟩ := syncTryBlock_error_shape env _ st.context e ce xe hsync
  refine ⟨{ ce with syncStatus := .pending, lastSyncError := some e }, _,
    ?_, rfl, rfl, ?_, ?_, rfl⟩
  · unfold CartService.addItem
    rw [hval]
    simp only []
    rw [addItemLocal_context u item env.now st]
    rw [sync_error_eq env _ st.context e ce xe hsync]
  · show ce.items = (addItemLocal u item env.now st).1.items
    rw [hshape]
  · show item ∈ ce.items
    rw [hshape]
    show item ∈ upsertItem (getCartOp u env.now st).1.items item
    exact mem_upsertItem _ _

lemma updateItemQuantity_sync_failure (u productId : String) (q : Int)
    (env : SyncEnv) (st : UserState) (e : String) (ce : Cart)
    (xe : Option ExternalCartContext) (items1 : List CartItem)
    (hval : validateQuantityUpdate q = none)
    (hupd : updateFirstQuantity (getCartOp u env.now st).1.items productId q =
      some items1)
    (hsync : syncTryBlock env
        (storeUpdate { (getCartOp u env.now st).1 with items := items1 } env.now)
        st.context = .error (e, ce, xe)) :
    ∃ c st', CartService.updateItemQuantity u productId q env st = .ok (c, st') ∧
      c.syncStatus = .pending ∧ c.lastSyncError = some e ∧ c.items = items1 ∧
      st' = { cart := some c, context := xe } := by
  obtain ⟨ext, hshape⟩ := syncTryBlock_error_shape env _ st.context e ce xe hsync
  refine ⟨{ ce with syncStatus := .pending, lastSyncError := some e }, _,
    ?_, rfl, rfl, ?_, rfl⟩
  · unfold CartService.updateItemQuantity
    rw [hval]
    simp only []
    rw [hupd]
    simp only []
    rw [sync_error_eq env _ st.context e ce xe hsync]
  · show ce.items = items1
    rw [hshape]
    rfl

lemma removeItem_sync_failure (u productId : String) (env : SyncEnv)
    (st : UserState) (e : String) (ce : Cart)
    (xe : Option ExternalCartContext) (items1 : List CartItem)
    (hrem : removeFirstItem (getCartOp u env.now st).1.items productId = some items1)
    (hsync : syncTryBlock env
        (storeUpdate { (getCartOp u env.now st).1 with items := items1 } env.now)
        st.context = .error (e, ce, xe)) :
    ∃ c st', CartService.removeItem u productId env st = .ok (c, st') ∧
      c.syncStatus = .pending ∧ c.lastSyncError = some e ∧ c.items = items1 ∧
      st' = { cart := some c, context := xe } := by
  obtain ⟨ext, hshape⟩ := syncTryBlock_error_shape env _ st.context e ce xe hsync
  refine ⟨{ ce with syncStatus := .pending, lastSyncError := some e }, _,
    ?_, rfl, rfl, ?_, rfl⟩
  · unfold CartService.removeItem
    simp only []
    rw [hrem]
    simp only []
    rw [sync_error_eq env _ st.context e ce xe hsync]
  · show ce.items = items1
    rw [hshape]
    rfl

/-- C4: a failing external synchronization is absorbed by every
cart-mutating operation — the operation returns the updated local cart
with sync status `pending` and the (non-empty) error recorded. -/
theorem c4_sync_failure_absorbed :
    (∀ (u : String) (item : CartItem) (env : SyncEnv) (st : UserState)
        (e : String) (ce : Cart) (xe : Option ExternalCartContext),
      validateCartItem item = none →
      syncTryBlock env (addItemLocal u item env.now st).1 st.context =
        .error (e, ce, xe) →
      e ≠ "" →
      ∃ c st', CartService.addItem u item env st = .ok (c, st') ∧
        c.syncStatus = .pending ∧ c.lastSyncError = some e ∧ e ≠ "" ∧
        c.items = (addItemLocal u item env.now st).1.items ∧ item ∈ c.items ∧
        st' = { cart := some c, context := xe }) ∧
    (∀ (u productId : String) (q : Int) (env : SyncEnv) (st : UserState)
        (e : String) (ce : Cart) (xe : Option ExternalCartContext)
        (items1 : List CartItem),
      validateQuantityUpdate q = none →
      updateFirstQuantity (getCartOp u env.now st).1.items productId q =
        some items1 →
      syncTryBlock env
          (storeUpdate { (getCartOp u env.now st).1 with items := items1 } env.now)
          st.context = .error (e, ce, xe) →
      e ≠ "" →
      ∃ c st', CartService.updateItemQuantity u productId q env st = .ok (c, st') ∧
        c.syncStatus = .pending ∧ c.lastSyncError = some e ∧ e ≠ "" ∧
        c.items = items1 ∧ st' = { cart := some c, context := xe }) ∧
    (∀ (u productId : String) (env : SyncEnv) (st : UserState) (e : String)
        (ce : Cart) (xe : Option ExternalCartContext) (items1 : List CartItem),
      removeFirstItem (getCartOp u env.now st).1.items productId = some items1 →
      syncTryBlock env
          (storeUpdate { (getCartOp u env.now st).1 with items := items1 } env.now)
          st.context = .error (e, ce, xe) →
      e ≠ "" →
      ∃ c st', CartService.removeItem u productId env st = .ok (c, st') ∧
        c.syncStatus = .pending ∧ c.lastSyncError = some e ∧ e ≠ "" ∧
        c.items = items1 ∧ st' = { cart := some c, context := xe }) := by
  refine ⟨?_, ?_, ?_⟩
  · intro u item env st e ce xe hval hsync hne
    obtain ⟨c, st', h1, h2, h3, h4, h5, h6⟩ :=
      addItem_sync_failure u item env st e ce xe hval hsync
    exact ⟨c, st', h1, h2, h3, hne, h4, h5, h6⟩
  · intro u productId q env st e ce xe items1 hval hupd hsync hne
    obtain ⟨c, st', h1, h2, h3, h4, h5⟩ :=
      updateItemQuantity_sync_failure u productId q env st e ce xe items1 hval hupd hsync
    exact ⟨c, st', h1, h2, h3, hne, h4, h5⟩
  · intro u productId env st e ce xe items1 hrem hsync hne
    obtain ⟨c, st', h1, h2, h3, h4, h5⟩ :=
      removeItem_sync_failure u productId env st e ce xe items1 hrem hsync
    exact ⟨c, st', h1, h2, h3, hne, h4, h5⟩

/-- C5 (code evaluation at the failing input): two tasks enqueued in
immediate succession; the first rejects.  The second task never runs
(first component `false`) and its caller receives the first task's
rejection instead of the task's own result `42`. -/
theorem c5_queue_poisoned_by_rejection :
    enqueueChain [Except.error "boom", Except.ok (42 : Nat)] =
      [(true, Except.error "boom"), (false, Except.error "boom")] := rfl

lemma syncTryBlock_ok_shape (env : SyncEnv) (cart : Cart)
    (ctx : Option ExternalCartContext) (ce : Cart)
    (xe : Option ExternalCartContext)
    (h : syncTryBlock env cart ctx = .ok (ce, xe)) :
    ∃ ext, ce = { cart with externalCartId := ext } := by
  unfold syncTryBlock at h
  cases ho : syncObtainContext env cart ctx with
  | error x =>
    rw [ho] at h
    simp at h
  | ok pair =>
    rw [ho] at h
    simp only [] at h
    obtain ⟨ext, hext⟩ := (syncObtainContext_shape env cart ctx).2 pair.1 pair.2
      (by rw [ho])
    have := (syncApplyDiff_cart env pair.1 pair.2).2 ce xe (by rw [← h])
    exact ⟨ext, by rw [this, hext]⟩

lemma sync_checkout_fields (env : SyncEnv) (cart : Cart)
    (ctx : Option ExternalCartContext) :
    (syncToExternalProvider env cart ctx).1.checkoutStatus = cart.checkoutStatus ∧
    (syncToExternalProvider env cart ctx).1.checkoutResult = cart.checkoutResult := by
  unfold syncToExternalProvider
  cases ht : syncTryBlock env cart ctx with
  | error x =>
    obtain ⟨ext, hs⟩ := syncTryBlock_error_shape env cart ctx x.1 x.2.1 x.2.2
      (by rw [ht])
    simp only []
    rw [hs]
    exact ⟨rfl, rfl⟩
  | ok pair =>
    obtain ⟨ext, hs⟩ := syncTryBlock_ok_shape env cart ctx pair.1 pair.2 (by rw [ht])
    simp only []
    rw [hs]
    exact ⟨rfl, rfl⟩

lemma sync_inv (env : SyncEnv) (cart : Cart) (ctx : Option ExternalCartContext)
    (h : checkoutResultInvariant cart) :
    checkoutResultInvariant (syncToExternalProvider env cart ctx).1 := by
  have hf := sync_checkout_fields env cart ctx
  unfold checkoutResultInvariant at h ⊢
  rw [hf.1, hf.2]
  exact h

lemma createNewCart_inv (u : String) (now : Int) :
    checkoutResultInvariant (createNewCart u now) ∧
    (createNewCart u now).checkoutResult = none := by
  refine ⟨?_, rfl⟩
  unfold checkoutResultInvariant createNewCart
  simp

lemma getCartOp_inv (u : String) (now : Int) (st : UserState)
    (hst : ∀ c0, st.cart = some c0 → checkoutResultInvariant c0) :
    checkoutResultInvariant (getCartOp u now st).1 := by
  unfold getCartOp
  cases hc : st.cart with
  | none => exact (createNewCart_inv u now).1
  | some c0 => exact hst c0 hc

lemma inv_result_none (cart : Cart) (hInv : checkoutResultInvariant cart)
    (hnc : cart.checkoutStatus ≠ .completed) : cart.checkoutResult = none := by
  unfold checkoutResultInvariant at hInv
  cases hres : cart.checkoutResult with
  | none => rfl
  | some r =>
    rw [hres] at hInv
    simp only [Option.isSome_some] at hInv
    exact absurd (hInv.mp trivial) hnc

lemma checkoutAttempt_inv (u : String) (env : CheckoutEnv)
    (ctx0 : Option ExternalCartContext) (cart : Cart)
    (hres : cart.checkoutResult = none) (c' : Cart)
    (h : (checkoutAttempt u env ctx0 cart).state.cart = some c') :
    checkoutResultInvariant c' := by
  unfold checkoutAttempt at h
  cases h1 : env.taxCalc with
  | error e =>
    rw [h1] at h
    simp only [] at h
    rw [checkoutCatch_state] at h
    simp only [Option.some.injEq] at h
    rw [← h]
    unfold checkoutResultInvariant
    show cart.checkoutResult.isSome = true ↔ CheckoutStatus.failed = .completed
    rw [hres]
    simp
  | ok taxResult =>
    rw [h1] at h
    simp only [] at h
    cases h2 : env.createCart with
    | error e =>
      rw [h2] at h
      simp only [] at h
      rw [checkoutCatch_state] at h
      simp only [Option.some.injEq] at h
      rw [← h]
      unfold checkoutResultInvariant
      show cart.checkoutResult.isSome = true ↔ CheckoutStatus.failed = .completed
      rw [hres]
      simp
    | ok context =>
      rw [h2] at h
      simp only [] at h
      cases h3 : env.getCart with
      | error e =>
        rw [h3] at h
        simp only [] at h
        rw [checkoutCatch_state] at h
        simp only [Option.some.injEq] at h
        rw [← h]
        unfold checkoutResultInvariant
        show cart.checkoutResult.isSome = true ↔ CheckoutStatus.failed = .completed
        rw [hres]
        simp
      | ok externalCart =>
        rw [h3] at h
        simp only [] at h
        cases h4 : validateCartMatch cart.items externalCart.items with
        | some vmsg =>
          rw [h4] at h
          simp only [] at h
          rw [checkoutCatch_state] at h
          simp only [Option.some.injEq] at h
          rw [← h]
          unfold checkoutResultInvariant
          show cart.checkoutResult.isSome = true ↔ CheckoutStatus.failed = .completed
          rw [hres]
          simp
        | none =>
          rw [h4] at h
          simp only [] at h
          cases h5 : env.providerCheckout with
          | error e =>
            rw [h5] at h
            simp only [] at h
            rw [checkoutCatch_state] at h
            simp only [Option.some.injEq] at h
            rw [← h]
            unfold checkoutResultInvariant
            show cart.checkoutResult.isSome = true ↔ CheckoutStatus.failed = .completed
            rw [hres]
            simp
          | ok providerResult =>
            rw [h5] at h
            simp only [] at h
            by_cases h6 : providerResult.status = .failed
            · rw [if_pos h6] at h
              simp only [Option.some.injEq] at h
              rw [← h]
              unfold checkoutResultInvariant
              show cart.checkoutResult.isSome = true ↔ CheckoutStatus.failed = .completed
              rw [hres]
              simp
            · rw [if_neg h6] at h
              cases h7 : env.cleanupFails with
              | true =>
                rw [h7] at h
                simp only [if_true, Option.some.injEq] at h
                rw [← h]
                unfold checkoutResultInvariant
                simp [storeUpdate]
              | false =>
                rw [h7] at h
                simp only [Bool.false_eq_true, if_false] at h
                simp at h

lemma checkout_inv (u : String) (env : CheckoutEnv) (st : UserState)
    (hst : ∀ c0, st.cart = some c0 → checkoutResultInvariant c0) (c' : Cart)
    (h : (CartService.checkout u env st).state.cart = some c') :
    checkoutResultInvariant c' := by
  cases hc : st.cart with
  | none =>
    rw [checkout_no_cart u env st hc] at h
    simp only [] at h
    rw [hc] at h
    simp at h
  | some cart =>
    have hInv := hst cart hc
    by_cases hcomp : cart.checkoutStatus = .completed
    · rw [checkout_completed_eq u env st cart hc hcomp] at h
      cases hcr : cart.checkoutResult with
      | some cached =>
        rw [hcr] at h
        simp only [] at h
        rw [hc] at h
        simp only [Option.some.injEq] at h
        rw [← h]
        exact hInv
      | none =>
        rw [hcr] at h
        simp only [] at h
        rw [hc] at h
        simp only [Option.some.injEq] at h
        rw [← h]
        exact hInv
    · by_cases hb : checkoutInProgressBlocked cart env.now = true
      · rw [checkout_blocked_eq u env st cart hc hcomp hb] at h
        simp only [] at h
        rw [hc] at h
        simp only [Option.some.injEq] at h
        rw [← h]
        exact hInv
      · have hnb : checkoutInProgressBlocked cart env.now = false := by simpa using hb
        by_cases he : cart.items.length = 0
        · rw [checkout_empty_eq u env st cart hc hcomp hnb he] at h
          simp only [] at h
          rw [hc] at h
          simp only [Option.some.injEq] at h
          rw [← h]
          exact hInv
        · rw [checkout_run_eq u env st cart hc hcomp hnb he] at h
          exact checkoutAttempt_inv u env st.context cart
            (inv_result_none cart hInv hcomp) c' h

lemma cleanupCartEntry_inv (now : Int) (cart : Cart)
    (hInv : checkoutResultInvariant cart) (c' : Cart)
    (h : cleanupCartEntry now cart = some c') : checkoutResultInvariant c' := by
  unfold cleanupCartEntry at h
  by_cases h1 : cart.checkoutStatus = .completed
  · rw [if_pos h1] at h
    simp at h
  · rw [if_neg h1] at h
    by_cases h2 : cart.checkoutStatus = .failed ∧
        now - (cart.checkoutStartedAt.getD 0) > 60 * 60 * 1000
    · rw [if_pos h2] at h
      simp at h
    · rw [if_neg h2] at h
      simp only [] at h
      by_cases h3 : cart.checkoutStatus = .in_progress ∧
          now - (cart.checkoutStartedAt.getD 0) > 5 * 60 * 1000
      · rw [if_pos h3] at h
        split at h
        · simp at h
        · simp only [Option.some.injEq] at h
          rw [← h]
          unfold checkoutResultInvariant
          show cart.checkoutResult.isSome = true ↔ CheckoutStatus.failed = .completed
          rw [inv_result_none cart hInv h1]
          simp
      · rw [if_neg h3] at h
        split at h
        · simp at h
        · simp only [Option.some.injEq] at h
          rw [← h]
          exact hInv

lemma addItem_inv (u : String) (item : CartItem) (env : SyncEnv) (st : UserState)
    (c : Cart) (st' : UserState)
    (hst : ∀ c0, st.cart = some c0 → checkoutResultInvariant c0)
    (h : CartService.addItem u item env st = .ok (c, st')) :
    checkoutResultInvariant c ∧
    ∀ c0, st'.cart = some c0 → checkoutResultInvariant c0 := by
  unfold CartService.addItem at h
  cases hval : validateCartItem item with
  | some msg =>
    rw [hval] at h
    simp at h
  | none =>
    rw [hval] at h
    simp only [Except.ok.injEq, Prod.mk.injEq] at h
    obtain ⟨h1, h2⟩ := h
    have hc : checkoutResultInvariant
        ((syncToExternalProvider env (addItemLocal u item env.now st).1
          ((addItemLocal u item env.now st).2).context).1) := by
      apply sync_inv
      exact getCartOp_inv u env.now st hst
    rw [h1] at hc
    refine ⟨hc, ?_⟩
    intro c0 hc0
    rw [← h2] at hc0
    simp only [Option.some.injEq] at hc0
    rw [← hc0, h1]
    exact hc

lemma updateItemQuantity_inv (u productId : String) (q : Int) (env : SyncEnv)
    (st : UserState) (c : Cart) (st' : UserState)
    (hst : ∀ c0, st.cart = some c0 → checkoutResultInvariant c0)
    (h : CartService.updateItemQuantity u productId q env st = .ok (c, st')) :
    checkoutResultInvariant c ∧
    ∀ c0, st'.cart = some c0 → checkoutResultInvariant c0 := by
  unfold CartService.updateItemQuantity at h
  cases hval : validateQuantityUpdate q with
  | some msg =>
    rw [hval] at h
    simp at h
  | none =>
    rw [hval] at h
    simp only [] at h
    cases hupd : updateFirstQuantity (getCartOp u env.now st).1.items productId q with
    | none =>
      rw [hupd] at h
      simp at h
    | some items1 =>
      rw [hupd] at h
      simp only [Except.ok.injEq, Prod.mk.injEq] at h
      obtain ⟨h1, h2⟩ := h
      have hc : checkoutResultInvariant
          ((syncToExternalProvider env
            (storeUpdate { (getCartOp u env.now st).1 with items := items1 } env.now)
            st.context).1) := by
        apply sync_inv
        exact getCartOp_inv u env.now st hst
      rw [h1] at hc
      refine ⟨hc, ?_⟩
      intro c0 hc0
      rw [← h2] at hc0
      simp only [Option.some.injEq] at hc0
      rw [← hc0, h1]
      exact hc

lemma removeItem_inv (u productId : String) (env : SyncEnv)
    (st : UserState) (c : Cart) (st' : UserState)
    (hst : ∀ c0, st.cart = some c0 → checkoutResultInvariant c0)
    (h : CartService.removeItem u productId env st = .ok (c, st')) :
    checkoutResultInvariant c ∧
    ∀ c0, st'.cart = some c0 → checkoutResultInvariant c0 := by
  unfold CartService.removeItem at h
  simp only [] at h
  cases hrem : removeFirstItem (getCartOp u env.now st).1.items productId with
  | none =>
    rw [hrem] at h
    simp at h
  | some items1 =>
    rw [hrem] at h
    simp only [Except.ok.injEq, Prod.mk.injEq] at h
    obtain ⟨h1, h2⟩ := h
    have hc : checkoutResultInvariant
        ((syncToExternalProvider env
          (storeUpdate { (getCartOp u env.now st).1 with items := items1 } env.now)
          st.context).1) := by
      apply sync_inv
      exact getCartOp_inv u env.now st hst
    rw [h1] at hc
    refine ⟨hc, ?_⟩
    intro c0 hc0
    rw [← h2] at hc0
    simp only [Option.some.injEq] at hc0
    rw [← hc0, h1]
    exact hc

lemma clearCart_inv (u : String) (now : Int) (st : UserState) (st' : UserState)
    (hst : ∀ c0, st.cart = some c0 → checkoutResultInvariant c0)
    (h : CartService.clearCart u now st = .ok st') :
    ∀ c0, st'.cart = some c0 → checkoutResultInvariant c0 := by
  unfold CartService.clearCart at h
  cases hc : st.cart with
  | none =>
    rw [hc] at h
    simp at h
  | some cart =>
    rw [hc] at h
    simp only [Except.ok.injEq] at h
    intro c0 hc0
    rw [← h] at hc0
    simp only [Option.some.injEq] at hc0
    rw [← hc0]
    exact hst cart hc

lemma setTaxContext_inv (u : String) (tc : TaxContext) (now : Int) (st : UserState)
    (hst : ∀ c0, st.cart = some c0 → checkoutResultInvariant c0) :
    checkoutResultInvariant (CartService.setTaxContext u tc now st).1 ∧
    ∀ c0, (CartService.setTaxContext u tc now st).2.cart = some c0 →
      checkoutResultInvariant c0 := by
  have hbase := getCartOp_inv u now st hst
  constructor
  · exact hbase
  · intro c0 hc0
    simp only [CartService.setTaxContext, Option.some.injEq] at hc0
    rw [← hc0]
    exact hbase

/-- C8: `checkoutResult` is set iff the checkout status is `completed`,
preserved by every public operation: a new cart has no result, each
mutating operation and checkout (under every environment) keeps the
invariant on the stored and returned carts, and so does a cleanup pass. -/
theorem c8_checkout_result_iff_completed :
    (∀ (u : String) (now : Int), checkoutResultInvariant (createNewCart u now) ∧
      (createNewCart u now).checkoutResult = none) ∧
    (∀ (u : String) (now : Int) (st : UserState),
      (∀ c0, st.cart = some c0 → checkoutResultInvariant c0) →
      checkoutResultInvariant (getCartOp u now st).1) ∧
    (∀ (u : String) (item : CartItem) (env : SyncEnv) (st : UserState)
        (c : Cart) (st' : UserState),
      (∀ c0, st.cart = some c0 → checkoutResultInvariant c0) →
      CartService.addItem u item env st = .ok (c, st') →
      checkoutResultInvariant c ∧
        ∀ c0, st'.cart = some c0 → checkoutResultInvariant c0) ∧
    (∀ (u productId : String) (q : Int) (env : SyncEnv) (st : UserState)
        (c : Cart) (st' : UserState),
      (∀ c0, st.cart = some c0 → checkoutResultInvariant c0) →
      CartService.updateItemQuantity u productId q env st = .ok (c, st') →
      checkoutResultInvariant c ∧
        ∀ c0, st'.cart = some c0 → checkoutResultInvariant c0) ∧
    (∀ (u productId : String) (env : SyncEnv) (st : UserState)
        (c : Cart) (st' : UserState),
      (∀ c0, st.cart = some c0 → checkoutResultInvariant c0) →
      CartService.removeItem u productId env st = .ok (c, st') →
      checkoutResultInvariant c ∧
        ∀ c0, st'.cart = some c0 → checkoutResultInvariant c0) ∧
    (∀ (u : String) (now : Int) (st : UserState) (st' : UserState),
      (∀ c0, st.cart = some c0 → checkoutResultInvariant c0) →
      CartService.clearCart u now st = .ok st' →
      ∀ c0, st'.cart = some c0 → checkoutResultInvariant c0) ∧
    (∀ (u : String) (tc : TaxContext) (now : Int) (st : UserState),
      (∀ c0, st.cart = some c0 → checkoutResultInvariant c0) →
      checkoutResultInvariant (CartService.setTaxContext u tc now st).1) ∧
    (∀ (u : String) (env : CheckoutEnv) (st : UserState),
      (∀ c0, st.cart = some c0 → checkoutResultInvariant c0) →
      ∀ c', (CartService.checkout u env st).state.cart = some c' →
        checkoutResultInvariant c') ∧
    (∀ (now : Int) (cart : Cart), checkoutResultInvariant cart →
      ∀ c', cleanupCartEntry now cart = some c' → checkoutResultInvariant c') := by
  refine ⟨createNewCart_inv, ?_, ?_, ?_, ?_, ?_, ?_, ?_, ?_⟩
  · intro u now st hst
    exact getCartOp_inv u now st hst
  · intro u item env st c st' hst h
    exact addItem_inv u item env st c st' hst h
  · intro u productId q env st c st' hst h
    exact updateItemQuantity_inv u productId q env st c st' hst h
  · intro u productId env st c st' hst h
    exact removeItem_inv u productId env st c st' hst h
  · intro u now st st' hst h
    exact clearCart_inv u now st st' hst h
  · intro u tc now st hst
    exact (setTaxContext_inv u tc now st hst).1
  · intro u env st hst c' h
    exact checkout_inv u env st hst c' h
  · intro now cart hInv c' h
    exact cleanupCartEntry_inv now cart hInv c' h

/-- C9: two items priced 999.99 and 79.99 (quantity 1) under the seeded
CA-ON 13% flat HST yield subtotal 1079.98, total tax 140.3974 (140.40 to
the cent) and total 1220.3774 (1220.38 to the cent). -/
theorem c9_ca_on_flat_tax_scenario :
    (CanadianTaxCalculator.calculate seedInitialRates c9Items c9Context).subtotal
        = 107998/100 ∧
    (CanadianTaxCalculator.calculate seedInitialRates c9Items c9Context).totalTax
        = 1403974/10000 ∧
    roundToTwoDecimals
        (CanadianTaxCalculator.calculate seedInitialRates c9Items c9Context).totalTax
        = 14040/100 ∧
    (CanadianTaxCalculator.calculate seedInitialRates c9Items c9Context).total
        = 12203774/10000 ∧
    roundToTwoDecimals
        (CanadianTaxCalculator.calculate seedInitialRates c9Items c9Context).total
        = 122038/100 := by
  refine ⟨?_, ?_, ?_, ?_, ?_⟩ <;>
    norm_num [CanadianTaxCalculator.calculate, getRatesAtDate, getRatesByJurisdiction,
      seedInitialRates, calculateSubtotal, calculateTaxableAmount, c9Items, c9Context,
      List.filter, List.find?, List.foldl, roundToTwoDecimals, mathRound]

lemma checkoutResultInvariant_of (c : Cart) (h1 : c.checkoutResult = none)
    (h2 : c.checkoutStatus ≠ .completed) : checkoutResultInvariant c := by
  unfold checkoutResultInvariant
  rw [h1]
  simp
  exact h2

theorem c1_witness :
    (CartService.checkout "u" wEnv { cart := some wCartCompleted, context := none }).calls
        = [] ∧
    ∃ r2,
      (CartService.checkout "u" wEnv
          (CartService.checkout "u" wEnv
            { cart := some wCartCompleted, context := none }).state).result = .ok r2 ∧
      (CartService.checkout "u" wEnv
          (CartService.checkout "u" wEnv
            { cart := some wCartCompleted, context := none }).state).calls = [] ∧
      (r2 = wResult ∨ (r2.status = .failed ∧ r2.orderId = none)) :=
  ⟨(c1_checkout_idempotency.1 "u" wEnv
      { cart := some wCartCompleted, context := none } wCartCompleted rfl rfl).1,
    c1_checkout_idempotency.2 "u" wEnv wEnv
      { cart := some wCartCompleted, context := none } wResult rfl rfl⟩

theorem c2_witness :
    ∃ c', (CartService.checkout "u" wEnvCF
        { cart := some wCartPending, context := none }).state.cart = some c' ∧
      c'.checkoutStatus = .completed ∧ c'.checkoutResult = some wResult ∧
      ∀ env2 : CheckoutEnv,
        CartService.checkout "u" env2
            (CartService.checkout "u" wEnvCF
              { cart := some wCartPending, context := none }).state =
          { result := .ok wResult,
            state := (CartService.checkout "u" wEnvCF
              { cart := some wCartPending, context := none }).state,
            calls := [] } :=
  c2_completed_cached_before_cleanup "u" wEnvCF
    { cart := some wCartPending, context := none } wResult rfl rfl rfl

theorem c3_witness :
    (∃ r, (CartService.checkout "u" c3EnvOk
        { cart := some wCartPending, context := none }).result = .ok r) ∧
    ((CartService.checkout "u" c3EnvOk
        { cart := some wCartPending, context := none }).result = .ok
      { orderId := none, userId := "u", subtotal := wTax.subtotal,
        taxes := wTax.taxes, totalTax := wTax.totalTax, total := wTax.total,
        status := .failed, items := wCartPending.items, completedAt := none,
        error := some "tax engine offline" } ∧
      ∃ c', (CartService.checkout "u" c3EnvOk
          { cart := some wCartPending, context := none }).state.cart = some c' ∧
        c'.checkoutStatus = .failed ∧ c'.checkoutError = some "tax engine offline") :=
  ⟨(c3_checkout_exception_handling "u" c3EnvOk
      { cart := some wCartPending, context := none } wTax rfl).1,
    (c3_checkout_exception_handling "u" c3EnvOk
      { cart := some wCartPending, context := none } wTax rfl).2 wCartPending rfl
      (by decide) rfl (by decide) "tax engine offline" rfl⟩

theorem c4_witness :
    ∃ c st', CartService.addItem "u" wItemB wSyncEnv
        { cart := some wCartPending, context := none } = .ok (c, st') ∧
      c.syncStatus = .pending ∧
      c.lastSyncError = some "External provider context expired: ctx1" ∧
      "External provider context expired: ctx1" ≠ "" ∧
      c.items = (addItemLocal "u" wItemB wSyncEnv.now
        { cart := some wCartPending, context := none }).1.items ∧
      wItemB ∈ c.items ∧ st' = { cart := some c, context := some wCtx } :=
  c4_sync_failure_absorbed.1 "u" wItemB wSyncEnv
    { cart := some wCartPending, context := none }
    "External provider context expired: ctx1"
    { (addItemLocal "u" wItemB wSyncEnv.now
        { cart := some wCartPending, context := none }).1 with
      externalCartId := some "ctx1" }
    (some wCtx)
    (by
      have hv : ¬(isBlank wItemB.productId = true ∨ isBlank wItemB.name = true ∨
          wItemB.quantity < 1 ∨ wItemB.price < 0) := by
        push_neg
        refine ⟨by decide, by decide, by decide, by norm_num [wItemB]⟩
      unfold validateCartItem
      rw [if_neg hv])
    (by rfl) (by decide)

theorem c6_witness :
    CartService.checkout "u" wEnv { cart := some wCartEmpty, context := none } =
      { result := .ok (failedCheckoutResult "u" [] ErrorMessages.emptyCart),
        state := { cart := some wCartEmpty, context := none }, calls := [] } :=
  c6_empty_cart_checkout "u" wEnv { cart := some wCartEmpty, context := none }
    wCartEmpty rfl rfl (by decide) rfl

theorem c7_witness :
    ∃ c', cleanupCartEntry 1000000 wCartStuck = some c' ∧
      c'.checkoutStatus = .failed ∧
      c'.checkoutError = some ErrorMessages.checkoutTimeout ∧
      (∀ (u : String) (carts : List (String × Cart)),
        (u, wCartStuck) ∈ carts → (u, c') ∈ cleanupExpiredCarts 1000000 carts) ∧
      (∀ (u : String) (env : CheckoutEnv) (ctx : Option ExternalCartContext),
        checkoutInProgressBlocked c' env.now = false ∧
        (c'.items.length ≠ 0 →
          CartService.checkout u env { cart := some c', context := ctx } =
            checkoutAttempt u env ctx c')) :=
  c7_stuck_checkout_recovery 1000000 wCartStuck 0 rfl rfl (by decide)

theorem c8_witness :
    (checkoutResultInvariant (createNewCart "u" 0) ∧
      (createNewCart "u" 0).checkoutResult = none) ∧
    ∀ c', (CartService.checkout "u" wEnv
        { cart := some wCartPending, context := none }).state.cart = some c' →
      checkoutResultInvariant c' :=
  ⟨c8_checkout_result_iff_completed.1 "u" 0,
    c8_checkout_result_iff_completed.2.2.2.2.2.2.2.1 "u" wEnv
      { cart := some wCartPending, context := none }
      (fun c0 hc0 => by
        simp only [Option.some.injEq] at hc0
        rw [← hc0]
        exact checkoutResultInvariant_of wCartPending rfl (by decide))⟩

theorem c10_witness :
    (CartService.checkout "u" wEnv
        { cart := some wCartStuckNoStart, context := none } =
      (if wCartStuckNoStart.items.length = 0 then
        { result := .ok (failedCheckoutResult "u" [] ErrorMessages.emptyCart),
          state := { cart := some wCartStuckNoStart, context := none }, calls := [] }
      else checkoutAttempt "u" wEnv none wCartStuckNoStart)) ∧
    (wCartStuckNoStart.items.length ≠ 0 →
      ∀ c', (CartService.checkout "u" wEnv
          { cart := some wCartStuckNoStart, context := none }).state.cart = some c' →
        c'.checkoutStartedAt = some wEnv.now) :=
  c10_missing_started_at "u" wEnv { cart := some wCartStuckNoStart, context := none }
    wCartStuckNoStart rfl rfl rfl
